import Mathlib

/-!
Verification of the diagnostic analysis engine of the code-quality analyzer.

The TypeScript sources are shallowly embedded: one Lean definition per
source function, working over `List Char` (called `Str`) so that the
JavaScript string primitives (`includes`, `indexOf`, `trim`, `split`,
`endsWith`, ...) have direct executable counterparts.  JavaScript regular
expressions that the engine uses are modelled by dedicated executable
matchers implementing leftmost-greedy match existence (and captured groups
where the source reads them).
-/

namespace CodeAnalyzer

/-- JavaScript strings, embedded as lists of characters. -/
abbrev Str := List Char

/-- JS `\s` / whitespace class (ASCII portion, which is all the engine meets). -/
def isJsSpace (c : Char) : Bool :=
  c = ' ' || c = '\t' || c = '\n' || c = '\r' || c = '\x0b' || c = '\x0c'

/-- JS `\w` word-character class: `[A-Za-z0-9_]`. -/
def isWordChar (c : Char) : Bool :=
  c.isAlpha || c.isDigit || c = '_'

/-- JS `[A-Z]`. -/
def isUpperAZ (c : Char) : Bool := 'A' ≤ c && c ≤ 'Z'

/-- JS `[a-zA-Z]`. -/
def isLetterAZ (c : Char) : Bool := ('a' ≤ c && c ≤ 'z') || ('A' ≤ c && c ≤ 'Z')

/-- JS `[a-zA-Z0-9]`. -/
def isAlnumAZ (c : Char) : Bool := isLetterAZ c || c.isDigit

/-- `String.prototype.includes`. -/
def strIncludes : Str → Str → Bool
  | s, pat =>
    if pat.isPrefixOf s then true
    else match s with
      | [] => false
      | _ :: t => strIncludes t pat

/-- Auxiliary scan for `indexOf`. -/
def strIndexOfAux (pat : Str) : Str → Nat → Int
  | [], i => if pat.isPrefixOf ([] : Str) then (i : Int) else -1
  | c :: t, i => if pat.isPrefixOf (c :: t) then (i : Int) else strIndexOfAux pat t (i + 1)

/-- `String.prototype.indexOf` (−1 when absent). -/
def strIndexOf (s pat : Str) : Int := strIndexOfAux pat s 0

/-- Auxiliary scan for `lastIndexOf`. -/
def strLastIndexOfAux (pat : Str) : Str → Nat → Int → Int
  | [], i, best => if pat.isEmpty then (i : Int) else best
  | c :: t, i, best =>
      strLastIndexOfAux pat t (i + 1) (if pat.isPrefixOf (c :: t) then (i : Int) else best)

/-- `String.prototype.lastIndexOf` (−1 when absent). -/
def strLastIndexOf (s pat : Str) : Int := strLastIndexOfAux pat s 0 (-1)

/-- `String.prototype.trimStart`. -/
def strTrimStart (s : Str) : Str := s.dropWhile isJsSpace

/-- `String.prototype.trim`. -/
def strTrim (s : Str) : Str :=
  ((s.dropWhile isJsSpace).reverse.dropWhile isJsSpace).reverse

/-- `String.prototype.toLowerCase` (ASCII). -/
def strToLower (s : Str) : Str := s.map Char.toLower

/-- `String.prototype.split(sep)` for a one-character separator; JS semantics:
`"".split(c) = [""]` and a trailing separator yields a trailing empty field. -/
def splitOnChar (sep : Char) : Str → List Str
  | [] => [[]]
  | c :: cs =>
      match splitOnChar sep cs with
      | [] => [[]]
      | h :: t => if c = sep then [] :: h :: t else (c :: h) :: t

/-- `code.split('\n')`. -/
def splitLines (code : Str) : List Str := splitOnChar '\n' code

/-- `String.prototype.split(sub)[0]`: the part before the first occurrence of
`sub` (the whole string when `sub` is absent).  Used for `name.split(' as ')[0]`. -/
def strBeforeFirst (s pat : Str) : Str :=
  if pat.isPrefixOf s then []
  else match s with
    | [] => []
    | c :: t => c :: strBeforeFirst t pat

/-- Decimal rendering of a line number, as used inside JS template literals. -/
def natToStr (n : Nat) : Str := (Nat.repr n).toList

/-- `Array.prototype.join(', ')`. -/
def joinCommaSep : List Str → Str
  | [] => []
  | [s] => s
  | s :: t => s ++ (',' :: ' ' :: joinCommaSep t)

/-- Issue severities (`'error' | 'warning' | 'info'`), `src/types/index.ts`. -/
inductive IssueType where
  | error
  | warning
  | info
deriving DecidableEq, Repr

/-- `CodeIssue` from `src/types/index.ts` (`suggestion` is optional there). -/
structure CodeIssue where
  id : Str
  type : IssueType
  category : Str
  message : Str
  line : Nat
  column : Int
  rule : Str
  suggestion : Option Str
deriving DecidableEq, Repr

/-- `ReactCodeAnalyzer.createIssue` (`src/utils/analyzer.ts`): every call site
passes a suggestion, so it is wrapped in `some`. -/
def createIssue (id : Str) (t : IssueType) (category message : Str) (line : Nat)
    (column : Int) (rule suggestion : Str) : CodeIssue :=
  ⟨id, t, category, message, line, column, rule, some suggestion⟩

/-! ### Executable models of the JS regular expressions used by the engine -/

/-- Existence of a match of `(?<!=)={2}(?!=)`: a `==` neither preceded nor
followed by `=` (`checkComparisonOperators`). -/
def looseEqAux (prev : Option Char) : Str → Bool
  | c1 :: c2 :: rest =>
      (c1 = '=' && c2 = '=' && !(prev == some '=') && !(rest.head? == some '=')) ||
        looseEqAux (some c1) (c2 :: rest)
  | _ => false

def looseEqTest (s : Str) : Bool := looseEqAux none s

/-- After a candidate first token of `([<>]=?)\s*[^&|]+\s*([<>]=?)`: the rest
matches `\s*[^&|]+\s*[<>]…` iff a `<`/`>` occurs after at least one character,
none of the characters before it being `&` or `|` (spaces and `[^&|]` together
cover exactly the non-`&`/`|` characters). -/
def chainRest (seen : Bool) : Str → Bool
  | [] => false
  | c :: cs =>
      if c = '&' || c = '|' then false
      else if seen && (c = '<' || c = '>') then true
      else chainRest true cs

/-- Leftmost-greedy match of `([<>]=?)\s*[^&|]+\s*([<>]=?)`, returning the
first captured group (`checkComparisonOperators`). -/
def chainedCompMatch : Str → Option Str
  | [] => none
  | c :: cs =>
      if c = '<' || c = '>' then
        match cs with
        | '=' :: rest =>
            if chainRest false rest then some [c, '=']
            else if chainRest false cs then some [c]
            else chainedCompMatch cs
        | _ => if chainRest false cs then some [c] else chainedCompMatch cs
      else chainedCompMatch cs

/-- Number of matches of `/&&|\|\|/g` (`checkLogicalOperators`). -/
def logicalOpCount : Str → Nat
  | '&' :: '&' :: rest => logicalOpCount rest + 1
  | '|' :: '|' :: rest => logicalOpCount rest + 1
  | _ :: rest => logicalOpCount rest
  | [] => 0

/-- Leftmost match of `/\/\s*(\w+|\d+)/`, returning the captured word after the
slash (`checkArithmeticOperators`). -/
def divMatch : Str → Option Str
  | [] => none
  | '/' :: cs =>
      let w := (cs.dropWhile isJsSpace).takeWhile isWordChar
      if w.isEmpty then divMatch cs else some w
  | _ :: cs => divMatch cs

/-- Existence of a match of `/\s%\s/` (`checkArithmeticOperators`). -/
def hasSpacedPercent : Str → Bool
  | c1 :: c2 :: c3 :: rest =>
      (isJsSpace c1 && c2 = '%' && isJsSpace c3) || hasSpacedPercent (c2 :: c3 :: rest)
  | _ => false

/-- Match attempt of `(\w+)\s*=\s*\1\s*([+\-*/%])\s*(.+)` anchored at the start
of `s`.  The maximal `\w+` run is the only candidate for the group: a shorter
run is followed by a word character, which satisfies neither `\s*` nor `=`. -/
def compoundAt (s : Str) : Option (Str × Char × Str) :=
  let w := s.takeWhile isWordChar
  if w.isEmpty then none
  else
    match (s.drop w.length).dropWhile isJsSpace with
    | '=' :: r2 =>
        let r3 := r2.dropWhile isJsSpace
        if w.isPrefixOf r3 then
          match (r3.drop w.length).dropWhile isJsSpace with
          | op :: r6 =>
              if op = '+' || op = '-' || op = '*' || op = '/' || op = '%' then
                if r6.isEmpty then none
                else
                  let r7 := r6.dropWhile isJsSpace
                  some (w, op, if r7.isEmpty then r6.drop (r6.length - 1) else r7)
              else none
          | [] => none
        else none
    | _ => none

/-- Leftmost match of `(\w+)\s*=\s*\1\s*([+\-*/%])\s*(.+)`
(`checkAssignmentOperators`). -/
def compoundMatch : Str → Option (Str × Char × Str)
  | [] => none
  | c :: cs =>
      match compoundAt (c :: cs) with
      | some r => some r
      | none => compoundMatch cs

/-- Existence of a match of `/\w+(\+\+|--)/` (`checkUnaryOperators`). -/
def postfixIncDec : Str → Bool
  | c1 :: c2 :: c3 :: rest =>
      (isWordChar c1 && ((c2 = '+' && c3 = '+') || (c2 = '-' && c3 = '-'))) ||
        postfixIncDec (c2 :: c3 :: rest)
  | _ => false

/-- Scan of the `[a-zA-Z0-9_$,\s<>[\]|&]*>` tail of the generic-type pattern:
`>` is itself in the class, so a match exists iff the first non-class character
reached is `>`. -/
def genericInner : Str → Bool
  | [] => false
  | c :: cs =>
      if c = '>' then true
      else if isAlnumAZ c || c = '_' || c = '$' || c = ',' || isJsSpace c || c = '<'
          || c = '[' || c = ']' || c = '|' || c = '&' then genericInner cs
      else false

/-- Existence of a match of `<[a-zA-Z_$][a-zA-Z0-9_$,\s<>[\]|&]*>`
(`REGEX_PATTERNS.genericType`, used by `checkTypeScriptSymbols`). -/
def genericTypeTest : Str → Bool
  | '<' :: c :: cs =>
      (if isLetterAZ c || c = '_' || c = '$' then genericInner cs else false)
        || genericTypeTest (c :: cs)
  | _ :: cs => genericTypeTest cs
  | [] => false

/-- Close scan for a regex literal: a `/` before any newline. -/
def regexLitClose : Str → Bool
  | [] => false
  | c :: cs => if c = '/' then true else if c = '\n' then false else regexLitClose cs

/-- After an opening `/`: at least one `[^\/\n]` character, then `/`. -/
def regexLitAfterSlash : Str → Bool
  | [] => false
  | c :: cs => if c = '/' || c = '\n' then false else regexLitClose cs

/-- Existence of a match of `/\/[^\/\n]+\/[gimuy]*/`
(`REGEX_PATTERNS.regexLiteral`, used by `checkSpecialPatterns`). -/
def regexLiteralTest : Str → Bool
  | [] => false
  | '/' :: cs => regexLitAfterSlash cs || regexLiteralTest cs
  | _ :: cs => regexLiteralTest cs

/-- Remaining input after `const`/`let`/`var` when one is a prefix. -/
def kwAt (s : Str) : Option Str :=
  if ['c', 'o', 'n', 's', 't'].isPrefixOf s then some (s.drop 5)
  else if ['l', 'e', 't'].isPrefixOf s then some (s.drop 3)
  else if ['v', 'a', 'r'].isPrefixOf s then some (s.drop 3)
  else none

/-- One alternative tail of the destructuring pattern:
`\s*⟨open⟩[^⟨close⟩]+⟨close⟩\s*=`. -/
def destructAfterKw (rest : Str) (openC closeC : Char) : Bool :=
  match rest.dropWhile isJsSpace with
  | c :: r1 =>
      if c = openC then
        let g := r1.takeWhile (fun d => !(d = closeC))
        if g.isEmpty then false
        else
          match r1.drop g.length with
          | d :: r2 =>
              if d = closeC then
                match r2.dropWhile isJsSpace with
                | '=' :: _ => true
                | _ => false
              else false
          | [] => false
      else false
  | [] => false

/-- Existence of a match of `REGEX_PATTERNS.destructuring`
(`(?:const|let|var)\s*\{[^}]+\}\s*=|(?:const|let|var)\s*\[[^\]]+\]\s*=`). -/
def destructuringTest : Str → Bool
  | [] => false
  | c :: cs =>
      (match kwAt (c :: cs) with
       | some rest => destructAfterKw rest '\x7b' '\x7d' || destructAfterKw rest '[' ']'
       | none => false) || destructuringTest cs

/-- Shorthand turning a Lean string literal into an embedded JS string. -/
def S (s : String) : Str := s.toList

/-! ### Operator and symbol checks (`src/utils/analyzer.ts`, lines 146–698) -/

/-- `checkComparisonOperators`. -/
def checkComparisonOperators (line : Str) (lineNum : Nat) : List CodeIssue :=
  let i1 :=
    if strIncludes line (S "==") && !strIncludes line (S "===")
        && !strIncludes line (S "!==") then
      if looseEqTest line then
        [createIssue (S "loose-equality-" ++ natToStr lineNum) .warning (S "Operators")
          (S "Use strict equality (===) instead of loose equality (==)") lineNum
          (strIndexOf line (S "==")) (S "operators/strict-equality")
          (S "Replace == with === for type-safe comparison")]
      else []
    else []
  let i2 :=
    if strIncludes line (S "!=") && !strIncludes line (S "!==") then
      [createIssue (S "loose-inequality-" ++ natToStr lineNum) .warning (S "Operators")
        (S "Use strict inequality (!==) instead of loose inequality (!=)") lineNum
        (strIndexOf line (S "!=")) (S "operators/strict-inequality")
        (S "Replace != with !== for type-safe comparison")]
    else []
  let i3 :=
    match chainedCompMatch line with
    | some g =>
        [createIssue (S "chained-comparison-" ++ natToStr lineNum) .info (S "Operators")
          (S "Chained comparison detected - ensure logical correctness") lineNum
          (strIndexOf line g) (S "operators/chained-comparison")
          (S "Consider breaking into separate conditions for clarity")]
    | none => []
  i1 ++ i2 ++ i3

/-- `checkLogicalOperators`. -/
def checkLogicalOperators (line : Str) (lineNum : Nat) : List CodeIssue :=
  let i1 :=
    if logicalOpCount line > 3 then
      [createIssue (S "complex-logical-" ++ natToStr lineNum) .warning (S "Operators")
        (S "Complex logical expression detected - consider simplifying") lineNum 0
        (S "operators/complex-logical")
        (S "Break complex logical expressions into smaller, named variables")]
    else []
  let i2 :=
    if strIncludes line (S "&&") && strIncludes line (S "=") then
      let assignmentIndex := strIndexOf line (S "=")
      let logicalIndex := strIndexOf line (S "&&")
      if logicalIndex < assignmentIndex then
        [createIssue (S "short-circuit-assignment-" ++ natToStr lineNum) .info (S "Operators")
          (S "Assignment in logical expression - verify short-circuit behavior") lineNum
          logicalIndex (S "operators/short-circuit")
          (S "Consider extracting assignment to separate statement")]
      else []
    else []
  let i3 :=
    if strIncludes line (S "!!") then
      [createIssue (S "double-negation-" ++ natToStr lineNum) .info (S "Operators")
        (S "Double negation detected - consider explicit Boolean conversion") lineNum
        (strIndexOf line (S "!!")) (S "operators/double-negation")
        (S "Use Boolean() constructor for explicit type conversion")]
    else []
  i1 ++ i2 ++ i3

/-- `checkArithmeticOperators`. -/
def checkArithmeticOperators (line : Str) (lineNum : Nat) : List CodeIssue :=
  let i1 :=
    if strIncludes line (S "/") && !strIncludes line (S "//")
        && !strIncludes line (S "*/") then
      match divMatch line with
      | some w =>
          if w == S "0" then
            [createIssue (S "division-by-zero-" ++ natToStr lineNum) .error (S "Operators")
              (S "Division by zero detected") lineNum (strIndexOf line (S "/"))
              (S "operators/division-by-zero") (S "Add zero check before division operation")]
          else []
      | none => []
    else []
  let i2 :=
    if strIncludes line (S "+")
        && (strIncludes line (S "\"") || strIncludes line (S "\x27")) then
      [createIssue (S "string-concatenation-" ++ natToStr lineNum) .info (S "Operators")
        (S "String concatenation with + operator - consider template literals") lineNum
        (strIndexOf line (S "+")) (S "operators/string-concatenation")
        (S "Use template literals (backticks) for string interpolation")]
    else []
  let i3 :=
    if strIncludes line (S "%") && !strIncludes line (S "/*")
        && !strIncludes line (S "*/") then
      if hasSpacedPercent line then
        [createIssue (S "modulo-usage-" ++ natToStr lineNum) .info (S "Operators")
          (S "Modulo operator detected - ensure proper handling of negative numbers") lineNum
          (strIndexOf line (S "%")) (S "operators/modulo")
          (S "Consider Math.abs() if always positive result needed")]
      else []
    else []
  i1 ++ i2 ++ i3

/-- `checkAssignmentOperators`. -/
def checkAssignmentOperators (line : Str) (lineNum : Nat) : List CodeIssue :=
  let i1 :=
    if (strIncludes line (S "if") || strIncludes line (S "while"))
        && strIncludes line (S "=") && !strIncludes line (S "==")
        && !strIncludes line (S "===") then
      [createIssue (S "assignment-in-conditional-" ++ natToStr lineNum) .warning (S "Operators")
        (S "Assignment in conditional expression may be unintentional") lineNum
        (strIndexOf line (S "=")) (S "operators/assignment-in-conditional")
        (S "Use comparison operators or wrap assignment in parentheses if intentional")]
    else []
  let i2 :=
    match compoundMatch line with
    | some (g1, op, g3) =>
        [createIssue (S "compound-assignment-" ++ natToStr lineNum) .info (S "Operators")
          (S "Consider using compound assignment operator (" ++ [op] ++ S "=)") lineNum
          (strIndexOf line (S "=")) (S "operators/compound-assignment")
          (S "Replace with " ++ g1 ++ [' ', op] ++ S "= " ++ g3)]
    | none => []
  i1 ++ i2

/-- The `bitwiseOps` array of `checkBitwiseOperators`. -/
def bitwiseOps : List Str := [S "&", S "|", S "^", S "~", S "<<", S ">>", S ">>>"]

/-- `checkBitwiseOperators`. -/
def checkBitwiseOperators (line : Str) (lineNum : Nat) : List CodeIssue :=
  bitwiseOps.flatMap fun op =>
    if strIncludes line op && !strIncludes line (op ++ op)
        && !strIncludes line (op ++ S "=") then
      if (op == S "&" && strIncludes line (S "&&"))
          || (op == S "|" && strIncludes line (S "||")) then []
      else
        [createIssue (S "bitwise-operator-" ++ natToStr lineNum) .info (S "Operators")
          (S "Bitwise operator " ++ op ++ S " detected - ensure intentional use") lineNum
          (strIndexOf line op) (S "operators/bitwise")
          (S "Verify bitwise operation is intended, not logical operation")]
    else []

/-- `checkUnaryOperators`. -/
def checkUnaryOperators (line : Str) (lineNum : Nat) : List CodeIssue :=
  let i1 :=
    if strIncludes line (S "++") || strIncludes line (S "--") then
      let operator := if strIncludes line (S "++") then S "++" else S "--"
      if postfixIncDec line && strIncludes line (S "=")
          && !(strIndexOf line (S "=") == strIndexOf line operator + 2) then
        [createIssue (S "postfix-in-expression-" ++ natToStr lineNum) .warning (S "Operators")
          (S "Postfix increment/decrement in complex expression") lineNum
          (strIndexOf line operator) (S "operators/postfix-expression")
          (S "Use prefix operator or separate statement for clarity")]
      else []
    else []
  let i2 :=
    if strIncludes line (S "typeof") then
      if !strIncludes line (S "\"") && !strIncludes line (S "\x27") then
        [createIssue (S "typeof-comparison-" ++ natToStr lineNum) .info (S "Operators")
          (S "typeof operator should be compared with string literal") lineNum
          (strIndexOf line (S "typeof")) (S "operators/typeof")
          (S "Compare typeof result with string literals like \"string\", \"number\", etc.")]
      else []
    else []
  let i3 :=
    if strIncludes line (S "void") then
      [createIssue (S "void-operator-" ++ natToStr lineNum) .info (S "Operators")
        (S "void operator detected - ensure necessary") lineNum
        (strIndexOf line (S "void")) (S "operators/void")
        (S "void operator is rarely needed in modern JavaScript")]
    else []
  i1 ++ i2 ++ i3

/-- `checkModernJSSymbols`. -/
def checkModernJSSymbols (line : Str) (lineNum : Nat) : List CodeIssue :=
  let i1 :=
    if strIncludes line (S "?.") then
      [createIssue (S "optional-chaining-" ++ natToStr lineNum) .info (S "Symbols")
        (S "Optional chaining operator used - good modern JS practice") lineNum
        (strIndexOf line (S "?.")) (S "symbols/optional-chaining")
        (S "Ensure proper fallback handling for undefined values")]
    else []
  let i2 :=
    if strIncludes line (S "??") then
      [createIssue (S "nullish-coalescing-" ++ natToStr lineNum) .info (S "Symbols")
        (S "Nullish coalescing operator used - good modern JS practice") lineNum
        (strIndexOf line (S "??")) (S "symbols/nullish-coalescing")
        (S "Preferred over || for null/undefined checks")]
    else []
  let i3 :=
    if strIncludes line (S "...") then
      if strIncludes line (S "function") || strIncludes line (S "=>") then
        [createIssue (S "rest-parameters-" ++ natToStr lineNum) .info (S "Symbols")
          (S "Rest parameters used - ensure proper typing") lineNum
          (strIndexOf line (S "...")) (S "symbols/rest-parameters")
          (S "Add proper TypeScript types for rest parameters")]
      else
        [createIssue (S "spread-operator-" ++ natToStr lineNum) .info (S "Symbols")
          (S "Spread operator used - ensure shallow copy behavior is intended") lineNum
          (strIndexOf line (S "...")) (S "symbols/spread-operator")
          (S "Consider deep copy if nested objects are involved")]
    else []
  let i4 :=
    if strIncludes line (S "\x60") then
      if !strIncludes line (S "$\x7b") then
        [createIssue (S "template-literal-no-interpolation-" ++ natToStr lineNum) .info
          (S "Symbols")
          (S "Template literal without interpolation - consider regular string") lineNum
          (strIndexOf line (S "\x60")) (S "symbols/template-literal")
          (S "Use regular quotes for strings without interpolation")]
      else []
    else []
  i1 ++ i2 ++ i3 ++ i4

/-- Existence of a match of `/(\w+)!/` (`checkTypeScriptSymbols`). -/
def nonNullTest : Str → Bool
  | c1 :: c2 :: rest => (isWordChar c1 && c2 = '!') || nonNullTest (c2 :: rest)
  | _ => false

/-- JS `a || b` on numbers (`0` is the only falsy index value here; `-1` is truthy). -/
def jsOrNum (a b : Int) : Int := if a = 0 then b else a

/-- `checkTypeScriptSymbols`. -/
def checkTypeScriptSymbols (line : Str) (lineNum : Nat) : List CodeIssue :=
  let i1 :=
    if strIncludes line (S "!") && !strIncludes line (S "!=")
        && !strIncludes line (S "!==") && !strIncludes line (S "!!") then
      if nonNullTest line then
        [createIssue (S "non-null-assertion-" ++ natToStr lineNum) .warning (S "Symbols")
          (S "Non-null assertion operator (!) used - ensure value is not null/undefined")
          lineNum (strIndexOf line (S "!")) (S "symbols/non-null-assertion")
          (S "Consider proper null checking instead of assertion")]
      else []
    else []
  let i2 :=
    if strIncludes line (S "?:")
        || (strIncludes line (S "?") && strIncludes line (S ":")) then
      [createIssue (S "optional-property-" ++ natToStr lineNum) .info (S "Symbols")
        (S "Optional property syntax detected") lineNum (strIndexOf line (S "?"))
        (S "symbols/optional-property")
        (S "Good TypeScript practice for optional interface properties")]
    else []
  let i3 :=
    if strIncludes line (S " as ")
        || (strIncludes line (S "<") && strIncludes line (S ">")
            && !strIncludes line (S "</")) then
      [createIssue (S "type-assertion-" ++ natToStr lineNum) .warning (S "Symbols")
        (S "Type assertion detected - ensure type safety") lineNum
        (jsOrNum (strIndexOf line (S " as ")) (strIndexOf line (S "<")))
        (S "symbols/type-assertion")
        (S "Prefer type guards over type assertions when possible")]
    else []
  let i4 :=
    if genericTypeTest line then
      [createIssue (S "generic-type-" ++ natToStr lineNum) .info (S "Symbols")
        (S "Generic type parameters used - ensure proper constraints") lineNum
        (strIndexOf line (S "<")) (S "symbols/generic-types")
        (S "Consider adding type constraints for better type safety")]
    else []
  i1 ++ i2 ++ i3 ++ i4

/-- `checkPunctuationSymbols`. -/
def checkPunctuationSymbols (line : Str) (lineNum : Nat) : List CodeIssue :=
  let t := strTrim line
  let shouldHaveSemicolon :=
    t.length > 0 && !((S ";").isSuffixOf t) && !((S "\x7b").isSuffixOf t)
      && !((S "\x7d").isSuffixOf t) && !((S ",").isSuffixOf t)
      && !strIncludes line (S "//")
      && !([S "if", S "for", S "while", S "import", S "export", S "class",
            S "interface", S "type"].any fun kw => kw.isPrefixOf t)
      && (strIncludes line (S "=") || strIncludes line (S "return")
          || strIncludes line (S "throw"))
  let i1 :=
    if shouldHaveSemicolon then
      [createIssue (S "missing-semicolon-" ++ natToStr lineNum) .info (S "Symbols")
        (S "Missing semicolon") lineNum (line.length : Int) (S "symbols/semicolon")
        (S "Add semicolon for consistent code style")]
    else []
  let i2 :=
    if (strIncludes line (S "\x7b") || strIncludes line (S "["))
        && strIncludes line (S ",") then
      let lastComma := strLastIndexOf line (S ",")
      let closingBracket := max (strLastIndexOf line (S "\x7d")) (strLastIndexOf line (S "]"))
      if closingBracket > lastComma && closingBracket - lastComma > 1 then
        [createIssue (S "missing-trailing-comma-" ++ natToStr lineNum) .info (S "Symbols")
          (S "Consider adding trailing comma") lineNum lastComma (S "symbols/trailing-comma")
          (S "Trailing commas make diffs cleaner")]
      else []
    else []
  i1 ++ i2

/-- `checkSpecialPatterns`. -/
def checkSpecialPatterns (line : Str) (lineNum : Nat) : List CodeIssue :=
  let i1 :=
    if strIncludes line (S "?") && strIncludes line (S ":") then
      if line.countP (fun c => c == '?') > 1 then
        [createIssue (S "nested-ternary-" ++ natToStr lineNum) .warning (S "Symbols")
          (S "Nested ternary operators detected - consider if/else for readability") lineNum
          (strIndexOf line (S "?")) (S "symbols/nested-ternary")
          (S "Break complex ternary into if/else statements")]
      else []
    else []
  let i2 :=
    if regexLiteralTest line then
      [createIssue (S "regex-literal-" ++ natToStr lineNum) .info (S "Symbols")
        (S "Regular expression literal detected") lineNum (strIndexOf line (S "/"))
        (S "symbols/regex") (S "Consider using RegExp constructor for dynamic patterns")]
    else []
  let i3 :=
    if destructuringTest line then
      [createIssue (S "destructuring-" ++ natToStr lineNum) .info (S "Symbols")
        (S "Destructuring assignment used - good modern JS practice") lineNum 0
        (S "symbols/destructuring")
        (S "Ensure all destructured properties exist to avoid undefined")]
    else []
  i1 ++ i2 ++ i3

/-- `checkOperatorsAndSymbols`: per-line aggregation of the ten checks above
(the `code` argument is unused there, as in the source). -/
def checkOperatorsAndSymbols (_code : Str) (lines : List Str) : List CodeIssue :=
  lines.enum.flatMap fun p =>
    let line := p.2
    let lineNum := p.1 + 1
    checkComparisonOperators line lineNum ++ checkLogicalOperators line lineNum
      ++ checkArithmeticOperators line lineNum ++ checkAssignmentOperators line lineNum
      ++ checkBitwiseOperators line lineNum ++ checkUnaryOperators line lineNum
      ++ checkModernJSSymbols line lineNum ++ checkTypeScriptSymbols line lineNum
      ++ checkPunctuationSymbols line lineNum ++ checkSpecialPatterns line lineNum

/-! ### Semantic rule checks (`src/utils/analyzer.ts`, lines 700–931) -/

/-- The `elementMap` of `getSuggestedSemanticElement`. -/
def elementMap : List (List Str × Str) :=
  [([S "header"], S "<header>"),
   ([S "nav", S "menu"], S "<nav>"),
   ([S "main", S "content"], S "<main>"),
   ([S "article", S "post"], S "<article>"),
   ([S "section"], S "<section>"),
   ([S "aside", S "sidebar"], S "<aside>"),
   ([S "footer"], S "<footer>")]

/-- `getSuggestedSemanticElement`. -/
def getSuggestedSemanticElement (line : Str) : List Str :=
  let lowerLine := strToLower line
  (elementMap.filter fun p => p.1.any fun kw => strIncludes lowerLine kw).map Prod.snd

/-- `SEMANTIC_ELEMENTS`. -/
def semanticElements : List Str := [S "button", S "input", S "select", S "textarea", S "a"]

/-- `hasRedundantAriaLabel`. -/
def hasRedundantAriaLabel (line : Str) : Bool :=
  semanticElements.any fun element => strIncludes line (S "<" ++ element)

/-- `checkSemanticHtml`. -/
def checkSemanticHtml (line : Str) (lineNum : Nat) : List CodeIssue :=
  let i1 :=
    if strIncludes line (S "<div") && !strIncludes line (S "className") then
      let suggestions := getSuggestedSemanticElement line
      if suggestions.length > 0 then
        [createIssue (S "semantic-html-" ++ natToStr lineNum) .warning (S "Semantics")
          (S "Consider using semantic HTML elements instead of generic div") lineNum
          (strIndexOf line (S "<div")) (S "semantic-html/prefer-semantic-elements")
          (S "Consider using: " ++ joinCommaSep suggestions)]
      else []
    else []
  let i2 :=
    if strIncludes line (S "return (") || strIncludes line (S "return(") then
      let hasLandmarks :=
        [S "<main", S "<header", S "<nav", S "<section"].any fun tag => strIncludes line tag
      if !hasLandmarks then
        [createIssue (S "missing-landmarks-" ++ natToStr lineNum) .info (S "Semantics")
          (S "Consider adding semantic landmark elements") lineNum 0
          (S "semantic-html/landmark-elements")
          (S "Add appropriate landmark elements for better document structure")]
      else []
    else []
  i1 ++ i2

/-- Attempt of `\s+([A-Z][a-zA-Z0-9]*)` right after a matched keyword. -/
def compNameAfterKw (rest : Str) : Option Str :=
  match rest with
  | c :: r1 =>
      if isJsSpace c then
        match r1.dropWhile isJsSpace with
        | u :: r2 => if isUpperAZ u then some (u :: r2.takeWhile isAlnumAZ) else none
        | [] => none
      else none
  | [] => none

/-- Leftmost match of `/(?:const|function)\s+([A-Z][a-zA-Z0-9]*)/`, returning
the captured component name (`checkNamingConventions`). -/
def componentNameMatch : Str → Option Str
  | [] => none
  | c :: cs =>
      let attempt :=
        if ['c', 'o', 'n', 's', 't'].isPrefixOf (c :: cs) then
          compNameAfterKw ((c :: cs).drop 5)
        else if ['f', 'u', 'n', 'c', 't', 'i', 'o', 'n'].isPrefixOf (c :: cs) then
          compNameAfterKw ((c :: cs).drop 8)
        else none
      match attempt with
      | some nm => some nm
      | none => componentNameMatch cs

/-- `GENERIC_COMPONENT_NAMES`. -/
def genericComponentNames : List Str :=
  [S "Component", S "Element", S "Item", S "Container", S "Wrapper", S "Thing"]

/-- `checkNamingConventions`. -/
def checkNamingConventions (line : Str) (lineNum : Nat) : List CodeIssue :=
  match componentNameMatch line with
  | some componentName =>
      if genericComponentNames.contains componentName then
        [createIssue (S "generic-component-name-" ++ natToStr lineNum) .warning (S "Semantics")
          (S "Component name \x27" ++ componentName ++ S "\x27 is too generic") lineNum
          (strIndexOf line componentName) (S "semantic-naming/meaningful-component-names")
          (S "Use descriptive names that reflect the component\x27s purpose")]
      else []
  | none => []

/-- Leftmost match of `/<h([1-6])/`, returning the heading level. -/
def headingMatch : Str → Option Nat
  | '<' :: 'h' :: c :: rest =>
      if '1' ≤ c && c ≤ '6' then some (c.toNat - '0'.toNat)
      else headingMatch ('h' :: c :: rest)
  | _ :: cs => headingMatch cs
  | [] => none

/-- The backwards scan of `checkHeadingHierarchy`: the heading level of the
closest earlier line that has one. -/
def prevHeadingLevel (earlier : List Str) : Option Nat :=
  earlier.reverse.findSome? headingMatch

/-- `checkHeadingHierarchy`. -/
def checkHeadingHierarchy (line : Str) (lineNum : Nat) (lines : List Str) (index : Nat) :
    List CodeIssue :=
  match headingMatch line with
  | some currentLevel =>
      match prevHeadingLevel (lines.take index) with
      | some prevLevel =>
          if currentLevel > prevLevel + 1 then
            [createIssue (S "heading-hierarchy-" ++ natToStr lineNum) .warning (S "Semantics")
              (S "Heading level h" ++ natToStr currentLevel ++ S " skips levels (previous was h"
                ++ natToStr prevLevel ++ S ")") lineNum
              (strIndexOf line (S "<h" ++ natToStr currentLevel))
              (S "semantic-html/heading-hierarchy")
              (S "Use sequential heading levels for proper document structure")]
          else []
      | none => []
  | none => []

/-- `checkFormSemantics`. -/
def checkFormSemantics (line : Str) (lineNum : Nat) : List CodeIssue :=
  let i1 :=
    if strIncludes line (S "<input") && !strIncludes line (S "aria-label")
        && !strIncludes line (S "id=") then
      [createIssue (S "input-without-label-" ++ natToStr lineNum) .error (S "Semantics")
        (S "Input element should have associated label or aria-label") lineNum
        (strIndexOf line (S "<input")) (S "semantic-forms/input-labels")
        (S "Add id to input and associate with label, or use aria-label")]
    else []
  let i2 :=
    if strIncludes line (S "<form") && !strIncludes line (S "onSubmit") then
      [createIssue (S "form-without-handler-" ++ natToStr lineNum) .warning (S "Semantics")
        (S "Form should have onSubmit handler for proper semantic behavior") lineNum
        (strIndexOf line (S "<form")) (S "semantic-forms/form-handler")
        (S "Add onSubmit handler to form element")]
    else []
  i1 ++ i2

/-- `checkListSemantics`. -/
def checkListSemantics (line : Str) (lineNum : Nat) : List CodeIssue :=
  if strIncludes line (S "map(") && strIncludes line (S "<div") then
    [createIssue (S "div-list-" ++ natToStr lineNum) .info (S "Semantics")
      (S "Consider using ul/ol and li elements for lists instead of div") lineNum
      (strIndexOf line (S "<div")) (S "semantic-html/proper-lists")
      (S "Use <ul><li> or <ol><li> for better semantic meaning")]
  else []

/-- `checkAriaSemantics`. -/
def checkAriaSemantics (line : Str) (lineNum : Nat) : List CodeIssue :=
  if strIncludes line (S "aria-label=") && hasRedundantAriaLabel line then
    [createIssue (S "redundant-aria-" ++ natToStr lineNum) .info (S "Semantics")
      (S "ARIA label may be redundant with existing semantic meaning") lineNum
      (strIndexOf line (S "aria-label")) (S "semantic-aria/avoid-redundancy")
      (S "Remove redundant ARIA attributes when semantic HTML provides meaning")]
  else []

/-- `checkComponentStructure` (whole-code rule). -/
def checkComponentStructure (code : Str) : List CodeIssue :=
  let componentLines := (splitLines code).length
  if componentLines > 100 then
    [createIssue (S "large-component") .info (S "Semantics")
      (S "Large component detected - consider breaking into smaller components") 1 0
      (S "semantic-structure/component-size")
      (S "Split large components into smaller, single-responsibility components")]
  else []

/-- `checkSemanticRules`. -/
def checkSemanticRules (code : Str) (lines : List Str) : List CodeIssue :=
  (lines.enum.flatMap fun p =>
    let line := p.2
    let index := p.1
    let lineNum := index + 1
    checkSemanticHtml line lineNum ++ checkNamingConventions line lineNum
      ++ checkHeadingHierarchy line lineNum lines index ++ checkFormSemantics line lineNum
      ++ checkListSemantics line lineNum ++ checkAriaSemantics line lineNum)
    ++ checkComponentStructure code

/-! ### Syntax rule checks (`src/utils/analyzer.ts`, lines 723–1190) -/

/-- The `BRACKETS` record: closing bracket of an opening one. -/
def bracketClose (c : Char) : Char :=
  if c = '(' then ')' else if c = '[' then ']' else if c = '\x7b' then '\x7d' else c

/-- Membership in `Object.keys(BRACKETS)`. -/
def isOpenBracket (c : Char) : Bool := c = '(' || c = '[' || c = '\x7b'

/-- Membership in `Object.values(BRACKETS)`. -/
def isCloseBracket (c : Char) : Bool := c = ')' || c = ']' || c = '\x7d'

/-- The per-character loop of `checkBracketMatching`, with the running stack
and character index. -/
def bracketMatchAux (lineNum : Nat) : List Char → List Char → Nat → List CodeIssue
  | _, [], _ => []
  | stack, c :: rest, i =>
      if isOpenBracket c then bracketMatchAux lineNum (c :: stack) rest (i + 1)
      else if isCloseBracket c then
        match stack with
        | [] =>
            createIssue (S "bracket-mismatch-" ++ natToStr lineNum ++ S "-" ++ natToStr i)
              .error (S "Syntax") (S "Mismatched brackets or parentheses") lineNum (i : Int)
              (S "syntax/bracket-matching") (S "Check bracket and parentheses pairing")
              :: bracketMatchAux lineNum [] rest (i + 1)
        | lastOpen :: stack' =>
            if !(bracketClose lastOpen = c) then
              createIssue (S "bracket-mismatch-" ++ natToStr lineNum ++ S "-" ++ natToStr i)
                .error (S "Syntax") (S "Mismatched brackets or parentheses") lineNum (i : Int)
                (S "syntax/bracket-matching") (S "Check bracket and parentheses pairing")
                :: bracketMatchAux lineNum stack' rest (i + 1)
            else bracketMatchAux lineNum stack' rest (i + 1)
      else bracketMatchAux lineNum stack rest (i + 1)

/-- `checkBracketMatching` (per-line). -/
def checkBracketMatching (line : Str) (lineNum : Nat) : List CodeIssue :=
  bracketMatchAux lineNum [] line 0

/-- `VOID_ELEMENTS`. -/
def voidElements : List Str := [S "img", S "input", S "br", S "hr", S "meta", S "link"]

/-- Leftmost match of `/<([a-zA-Z]+)/`, returning the captured tag name. -/
def tagMatch : Str → Option Str
  | [] => none
  | '<' :: c :: cs =>
      if isLetterAZ c then some (c :: cs.takeWhile isLetterAZ)
      else tagMatch (c :: cs)
  | _ :: cs => tagMatch cs

/-- `checkJSXSyntax`. -/
def checkJSXSyntax (line : Str) (lineNum : Nat) : List CodeIssue :=
  let i1 :=
    if strIncludes line (S "<") && strIncludes line (S ">")
        && !strIncludes line (S "/>") && !strIncludes line (S "</") then
      match tagMatch line with
      | some tag =>
          if voidElements.contains tag && !strIncludes line (S "/>") then
            [createIssue (S "self-closing-tag-" ++ natToStr lineNum) .warning (S "Syntax")
              (S "Self-closing tag " ++ tag ++ S " should end with />") lineNum
              (strIndexOf line (S "<" ++ tag)) (S "jsx-syntax/self-closing-tags")
              (S "Add /> to self-closing tags")]
          else []
      | none => []
    else []
  let i2 :=
    if strIncludes line (S "class=") then
      [createIssue (S "jsx-class-" ++ natToStr lineNum) .error (S "Syntax")
        (S "Use className instead of class in JSX") lineNum
        (strIndexOf line (S "class=")) (S "jsx-syntax/className")
        (S "Replace class with className")]
    else []
  let i3 :=
    if strIncludes line (S "<!--") then
      [createIssue (S "jsx-comment-" ++ natToStr lineNum) .error (S "Syntax")
        (S "Use \x7b/* */\x7d for comments in JSX instead of HTML comments") lineNum
        (strIndexOf line (S "<!--")) (S "jsx-syntax/comments")
        (S "Use \x7b/* comment */\x7d syntax for JSX comments")]
    else []
  i1 ++ i2 ++ i3

/-- Match attempt of `\s*\([^)]*\)\s*=>\s*\{` right after a matched `=`. -/
def arrowBlockAt (s : Str) : Bool :=
  match s.dropWhile isJsSpace with
  | '(' :: r1 =>
      let mid := r1.takeWhile fun c => !(c = ')')
      match r1.drop mid.length with
      | ')' :: r3 =>
          match r3.dropWhile isJsSpace with
          | '=' :: '>' :: r4 =>
              match r4.dropWhile isJsSpace with
              | '\x7b' :: _ => true
              | _ => false
          | _ => false
      | _ => false
  | _ => false

/-- Existence of a match of `/=\s*\([^)]*\)\s*=>\s*\{/` (`checkFunctionSyntax`). -/
def arrowBlockTest : Str → Bool
  | [] => false
  | '=' :: cs => arrowBlockAt cs || arrowBlockTest cs
  | _ :: cs => arrowBlockTest cs

/-- `checkFunctionSyntax`. -/
def checkFunctionSyntax (line : Str) (lineNum : Nat) : List CodeIssue :=
  let i1 :=
    if arrowBlockTest line && !strIncludes line (S "return") then
      [createIssue (S "arrow-function-return-" ++ natToStr lineNum) .warning (S "Syntax")
        (S "Arrow function with block body should have explicit return") lineNum
        (strIndexOf line (S "=>")) (S "function-syntax/explicit-return")
        (S "Add return statement or use implicit return with parentheses")]
    else []
  let i2 :=
    if strIncludes line (S "function") && !strIncludes line (S "(") then
      [createIssue (S "function-syntax-" ++ natToStr lineNum) .error (S "Syntax")
        (S "Function declaration missing parentheses") lineNum
        (strIndexOf line (S "function")) (S "function-syntax/parentheses")
        (S "Add parentheses after function name")]
    else []
  i1 ++ i2

/-- Match attempt of `\s+['"`]` right after a matched `from`. -/
def fromQuoteAt (rest : Str) : Bool :=
  match rest with
  | c :: r1 =>
      if isJsSpace c then
        match r1.dropWhile isJsSpace with
        | q :: _ => q = '\x27' || q = '"' || q = '\x60'
        | [] => false
      else false
  | [] => false

/-- Existence of a match of `/from\s+['"`]/` (`checkImportExportSyntax`). -/
def fromQuoteTest : Str → Bool
  | [] => false
  | c :: cs =>
      (if ['f', 'r', 'o', 'm'].isPrefixOf (c :: cs) then fromQuoteAt ((c :: cs).drop 4)
       else false) || fromQuoteTest cs

/-- `checkImportExportSyntax`. -/
def checkImportExportSyntax (line : Str) (lineNum : Nat) : List CodeIssue :=
  if strIncludes line (S "import") && strIncludes line (S "from")
      && !fromQuoteTest line then
    [createIssue (S "import-quotes-" ++ natToStr lineNum) .error (S "Syntax")
      (S "Import path should be enclosed in quotes") lineNum
      (strIndexOf line (S "from")) (S "import-syntax/quotes")
      (S "Wrap import path in quotes")]
  else []

/-- `checkObjectArraySyntax`. -/
def checkObjectArraySyntax (line : Str) (lineNum : Nat) : List CodeIssue :=
  if (strIncludes line (S "\x7b") || strIncludes line (S "["))
      && strIncludes line (S ",")
      && ((S "\x7d").isSuffixOf line || (S "]").isSuffixOf line) then
    let lastCommaIndex := strLastIndexOf line (S ",")
    let lastBracketIndex := max (strLastIndexOf line (S "\x7d")) (strLastIndexOf line (S "]"))
    if lastCommaIndex < lastBracketIndex - 1 then
      [createIssue (S "trailing-comma-" ++ natToStr lineNum) .info (S "Syntax")
        (S "Consider adding trailing comma for better diff readability") lineNum
        (lastBracketIndex - 1) (S "object-syntax/trailing-comma")
        (S "Add trailing comma after last property/element")]
    else []
  else []

/-- `checkConditionalSyntax`. -/
def checkConditionalSyntax (line : Str) (lineNum : Nat) : List CodeIssue :=
  let i1 :=
    if strIncludes line (S "?") && strIncludes line (S ":")
        && strIncludes line (S "<") && !strIncludes line (S "(") then
      [createIssue (S "ternary-parentheses-" ++ natToStr lineNum) .warning (S "Syntax")
        (S "Consider wrapping ternary operator in parentheses for clarity") lineNum
        (strIndexOf line (S "?")) (S "conditional-syntax/ternary-parentheses")
        (S "Wrap ternary expressions in parentheses")]
    else []
  let i2 :=
    if (strIncludes line (S "if") || strIncludes line (S "while"))
        && strIncludes line (S "=") && !strIncludes line (S "==")
        && !strIncludes line (S "===") then
      [createIssue (S "assignment-in-conditional-" ++ natToStr lineNum) .warning (S "Syntax")
        (S "Assignment in conditional may be unintentional") lineNum
        (strIndexOf line (S "=")) (S "conditional-syntax/assignment")
        (S "Use === for comparison or wrap assignment in parentheses if intentional")]
    else []
  i1 ++ i2

/-- `checkCommonSyntaxErrors`. -/
def checkCommonSyntaxErrors (line : Str) (lineNum : Nat) : List CodeIssue :=
  let t := strTrim line
  let shouldHaveSemicolon :=
    t.length > 0 && !((S ";").isSuffixOf t) && !((S "\x7b").isSuffixOf t)
      && !((S "\x7d").isSuffixOf t) && !((S ",").isSuffixOf t)
      && !strIncludes line (S "//")
      && !([S "if", S "for", S "while", S "import", S "export"].any
            fun kw => strIncludes line kw)
      && strIncludes line (S "=")
  if shouldHaveSemicolon then
    [createIssue (S "missing-semicolon-" ++ natToStr lineNum) .info (S "Syntax")
      (S "Consider adding semicolon for consistency") lineNum (line.length : Int)
      (S "syntax/semicolons") (S "Add semicolon at end of statement")]
  else []

/-- The per-character loop of `checkCodeStructureSyntax` over one line, with
the running cross-line stack of `{char, line}` pairs. -/
def structAux (lineNum : Nat) : List (Char × Nat) → List Char → Nat →
    List CodeIssue × List (Char × Nat)
  | stack, [], _ => ([], stack)
  | stack, c :: rest, i =>
      if isOpenBracket c then structAux lineNum ((c, lineNum) :: stack) rest (i + 1)
      else if isCloseBracket c then
        match stack with
        | [] =>
            let r := structAux lineNum [] rest (i + 1)
            (createIssue (S "unmatched-bracket-" ++ natToStr lineNum) .error (S "Syntax")
              (S "Unmatched bracket in code structure") lineNum (i : Int)
              (S "syntax/code-structure") (S "Check bracket matching throughout the file")
              :: r.1, r.2)
        | lastOpen :: stack' =>
            if !(bracketClose lastOpen.1 = c) then
              let r := structAux lineNum stack' rest (i + 1)
              (createIssue (S "unmatched-bracket-" ++ natToStr lineNum) .error (S "Syntax")
                (S "Unmatched bracket in code structure") lineNum (i : Int)
                (S "syntax/code-structure") (S "Check bracket matching throughout the file")
                :: r.1, r.2)
            else structAux lineNum stack' rest (i + 1)
      else structAux lineNum stack rest (i + 1)

/-- The per-line loop of `checkCodeStructureSyntax`. -/
def structLines : List (Char × Nat) → List (Nat × Str) → List CodeIssue × List (Char × Nat)
  | stack, [] => ([], stack)
  | stack, (index, line) :: rest =>
      let r1 := structAux (index + 1) stack line 0
      let r2 := structLines r1.2 rest
      (r1.1 ++ r2.1, r2.2)

/-- The unclosed-bracket issue emitted for one leftover stack entry. -/
def unclosedIssue (p : Char × Nat) : CodeIssue :=
  createIssue (S "unclosed-bracket-" ++ natToStr p.2) .error (S "Syntax")
    (S "Unclosed " ++ [p.1] ++ S " bracket") p.2 0 (S "syntax/unclosed-brackets")
    (S "Add closing " ++ [bracketClose p.1] ++ S " bracket")

/-- `checkCodeStructureSyntax` (whole-code bracket validator).  The JS stack is
an array pushed at the end and popped from the end; it is embedded head-first
here, so the final `stack.forEach` traverses its reverse. -/
def checkCodeStructureSyntax (code : Str) : List CodeIssue :=
  let r := structLines [] (splitLines code).enum
  r.1 ++ r.2.reverse.map unclosedIssue

/-- `checkSyntaxRules`. -/
def checkSyntaxRules (code : Str) (lines : List Str) : List CodeIssue :=
  (lines.enum.flatMap fun p =>
    let line := p.2
    let lineNum := p.1 + 1
    checkBracketMatching line lineNum ++ checkJSXSyntax line lineNum
      ++ checkFunctionSyntax line lineNum ++ checkImportExportSyntax line lineNum
      ++ checkObjectArraySyntax line lineNum ++ checkConditionalSyntax line lineNum
      ++ checkCommonSyntaxErrors line lineNum)
    ++ checkCodeStructureSyntax code

/-! ### React, TypeScript, accessibility, performance and code-quality checks
(`src/utils/analyzer.ts`, lines 1192–1480) -/

/-- `REACT_HOOKS`. -/
def reactHooks : List Str :=
  [S "useState", S "useEffect", S "useContext", S "useReducer", S "useCallback",
   S "useMemo", S "useRef"]

/-- `containsHook`. -/
def containsHook (line : Str) : Bool := reactHooks.any fun hook => strIncludes line hook

/-- `isInComponentContext`: the source walks the earlier lines upwards and
returns at the first line satisfying one of three patterns, which is an
existential over the earlier lines. -/
def isInComponentContext (lines : List Str) (currentIndex : Nat) : Bool :=
  (lines.take currentIndex).any fun l =>
    let line := strTrim l
    (strIncludes line (S "function") && strIncludes line (S "(")
        && !strIncludes line (S "//"))
      || (strIncludes line (S "const") && strIncludes line (S "=")
          && strIncludes line (S "=>"))
      || (strIncludes line (S "class") && strIncludes line (S "extends"))

/-- `checkBasicReactRules`. -/
def checkBasicReactRules (code : Str) (lines : List Str) : List CodeIssue :=
  lines.enum.flatMap fun p =>
    let line := p.2
    let index := p.1
    let lineNum := index + 1
    let trimmedLine := strTrim line
    let i1 :=
      if strIncludes trimmedLine (S "(\x7b ") && !strIncludes code (S "PropTypes")
          && !strIncludes code (S "interface") then
        [createIssue (S "prop-types-" ++ natToStr lineNum) .warning (S "Type Safety")
          (S "Missing PropTypes validation or TypeScript interface") lineNum
          (strIndexOf line (S "(\x7b ")) (S "react/prop-types")
          (S "Add PropTypes validation or use TypeScript interfaces")]
      else []
    let i2 :=
      if strIncludes trimmedLine (S ".map(") && !strIncludes trimmedLine (S "key=") then
        [createIssue (S "missing-key-" ++ natToStr lineNum) .error (S "React")
          (S "Missing key prop in list rendering") lineNum
          (strIndexOf line (S ".map(")) (S "react/jsx-key")
          (S "Add unique key prop to each rendered element")]
      else []
    let i3 :=
      if reactHooks.any (fun hook => strIncludes trimmedLine hook) then
        if !isInComponentContext lines index then
          [createIssue (S "hook-outside-component-" ++ natToStr lineNum) .error
            (S "React Hooks")
            (S "React hooks can only be called inside functional components") lineNum
            (strIndexOf line (S "use")) (S "react-hooks/rules-of-hooks")
            (S "Move hook call inside component function")]
        else []
      else []
    let i4 :=
      if ([S "if", S "for", S "while"].any fun kw => strIncludes trimmedLine kw)
          && containsHook trimmedLine then
        [createIssue (S "conditional-hook-" ++ natToStr lineNum) .error (S "React Hooks")
          (S "React hooks cannot be called conditionally") lineNum 0
          (S "react-hooks/rules-of-hooks") (S "Move hook calls to top level of component")]
      else []
    i1 ++ i2 ++ i3 ++ i4

/-- `checkTypeScriptRules` (the `code` argument is unused there, as in the source). -/
def checkTypeScriptRules (_code : Str) (lines : List Str) : List CodeIssue :=
  lines.enum.flatMap fun p =>
    let line := p.2
    let lineNum := p.1 + 1
    let i1 :=
      if strIncludes line (S ": any") || strIncludes line (S "<any>") then
        [createIssue (S "any-type-" ++ natToStr lineNum) .warning (S "TypeScript")
          (S "Avoid using any type") lineNum (strIndexOf line (S "any"))
          (S "@typescript-eslint/no-explicit-any")
          (S "Define proper types instead of using any")]
      else []
    let i2 :=
      if strIncludes line (S "function") && strIncludes line (S "(")
          && !strIncludes line (S ":") && !strIncludes line (S "=>") then
        [createIssue (S "missing-return-type-" ++ natToStr lineNum) .info (S "TypeScript")
          (S "Function missing return type annotation") lineNum
          (strIndexOf line (S "function"))
          (S "@typescript-eslint/explicit-function-return-type")
          (S "Add return type annotation to function")]
      else []
    let i3 :=
      if strIncludes line (S "console.log") then
        [createIssue (S "console-log-" ++ natToStr lineNum) .info (S "Code Quality")
          (S "Remove console.log statement") lineNum (strIndexOf line (S "console.log"))
          (S "no-console") (S "Use proper error handling instead of console.log")]
      else []
    i1 ++ i2 ++ i3

/-- `checkAccessibilityRules` (the `code` argument is unused there, as in the source). -/
def checkAccessibilityRules (_code : Str) (lines : List Str) : List CodeIssue :=
  lines.enum.flatMap fun p =>
    let line := p.2
    let lineNum := p.1 + 1
    let i1 :=
      if strIncludes line (S "<img") && !strIncludes line (S "alt=") then
        [createIssue (S "missing-alt-" ++ natToStr lineNum) .error (S "Accessibility")
          (S "Image missing alt attribute") lineNum (strIndexOf line (S "<img"))
          (S "jsx-a11y/alt-text") (S "Add descriptive alt attribute to image")]
      else []
    let i2 :=
      if strIncludes line (S "<button") && !strIncludes line (S "aria-")
          && !strIncludes line (S "type=") then
        [createIssue (S "a11y-button-" ++ natToStr lineNum) .warning (S "Accessibility")
          (S "Button missing accessibility attributes") lineNum
          (strIndexOf line (S "<button")) (S "jsx-a11y/button-has-type")
          (S "Add aria-label or proper button type")]
      else []
    i1 ++ i2

/-- `checkPerformanceRules` (the `code` argument is unused there, as in the source). -/
def checkPerformanceRules (_code : Str) (lines : List Str) : List CodeIssue :=
  lines.enum.flatMap fun p =>
    let line := p.2
    let lineNum := p.1 + 1
    let i1 :=
      if strIncludes line (S "style=\x7b\x7b")
          || strIncludes line (S "onClick=\x7b() =>") then
        [createIssue (S "inline-creation-" ++ natToStr lineNum) .warning (S "Performance")
          (S "Inline object/function creation in render") lineNum
          (strIndexOf line
            (if strIncludes line (S "style=\x7b\x7b") then S "style=\x7b\x7b"
             else S "onClick=\x7b() =>"))
          (S "react/jsx-no-bind")
          (S "Move object/function creation outside render or use useCallback/useMemo")]
      else []
    let i2 :=
      if strIncludes line (S "import")
          && (strIncludes line (S "lodash") || strIncludes line (S "moment")) then
        [createIssue (S "large-import-" ++ natToStr lineNum) .warning (S "Performance")
          (S "Consider importing specific functions to reduce bundle size") lineNum
          (strIndexOf line (S "import")) (S "performance/selective-imports")
          (S "Import only needed functions instead of entire library")]
      else []
    i1 ++ i2

/-- Match attempt of `\s+\{([^}]+)\}` right after a matched `import`. -/
def importBracesAfterKw (rest : Str) : Option Str :=
  match rest with
  | c :: r1 =>
      if isJsSpace c then
        match r1.dropWhile isJsSpace with
        | '\x7b' :: r2 =>
            let g := r2.takeWhile fun d => !(d = '\x7d')
            if g.isEmpty then none
            else
              match r2.drop g.length with
              | '\x7d' :: _ => some g
              | _ => none
        | _ => none
      else none
  | [] => none

/-- Leftmost match of `/import\s+\{([^}]+)\}/`, returning the captured import
list (`checkCodeQualityRules`). -/
def importBracesMatch : Str → Option Str
  | [] => none
  | c :: cs =>
      match (if ['i', 'm', 'p', 'o', 'r', 't'].isPrefixOf (c :: cs) then
               importBracesAfterKw ((c :: cs).drop 6)
             else none) with
      | some g => some g
      | none => importBracesMatch cs

/-- Leftmost match of `/\b(\d{2,})\b/`: a maximal digit run of length at least
two with non-word characters (or the string ends) on both sides.  A shorter
candidate run always abuts a further digit, so only maximal runs can match. -/
def magicAt (prev : Option Char) : Str → Option Str
  | [] => none
  | c :: cs =>
      if c.isDigit && (match prev with | none => true | some p => !isWordChar p) then
        let run := (c :: cs).takeWhile Char.isDigit
        if run.length ≥ 2 &&
            (match (c :: cs).drop run.length with
             | [] => true
             | d :: _ => !isWordChar d) then some run
        else magicAt (some c) cs
      else magicAt (some c) cs

def magicNumberMatch (s : Str) : Option Str := magicAt none s

/-- `parseInt(s, 10)` on a digit run. -/
def digitsToNat : Str → Nat → Nat
  | [], acc => acc
  | c :: cs, acc => digitsToNat cs (acc * 10 + (c.toNat - '0'.toNat))

def parseIntDec (s : Str) : Nat := digitsToNat s 0

/-- `checkCodeQualityRules`. -/
def checkCodeQualityRules (code : Str) (lines : List Str) : List CodeIssue :=
  lines.enum.flatMap fun p =>
    let line := p.2
    let lineNum := p.1 + 1
    let trimmedLine := strTrim line
    let i1 :=
      if (S "import").isPrefixOf trimmedLine && strIncludes trimmedLine (S "React") then
        match importBracesMatch trimmedLine with
        | some g =>
            ((splitOnChar ',' g).map strTrim).flatMap fun importName =>
              if !(importName == S "React")
                  && !strIncludes code (strBeforeFirst importName (S " as ")) then
                [createIssue
                  (S "unused-import-" ++ natToStr lineNum ++ S "-" ++ importName)
                  .warning (S "Code Quality") (S "Unused import: " ++ importName) lineNum
                  (strIndexOf line importName) (S "no-unused-vars")
                  (S "Remove unused import: " ++ importName)]
              else []
        | none => []
      else []
    let i2 :=
      if trimmedLine == S "\x7b\x7d" || trimmedLine == S "\x7b \x7d" then
        [createIssue (S "empty-block-" ++ natToStr lineNum) .info (S "Code Quality")
          (S "Empty block detected") lineNum (strIndexOf line (S "\x7b")) (S "no-empty")
          (S "Remove empty block or add implementation")]
      else []
    let i3 :=
      match magicNumberMatch trimmedLine with
      | some number =>
          if !strIncludes line (S "const") && !strIncludes line (S "=") then
            if parseIntDec number > 10 then
              [createIssue (S "magic-number-" ++ natToStr lineNum) .info (S "Code Quality")
                (S "Consider extracting magic number " ++ number
                  ++ S " to a named constant") lineNum (strIndexOf line number)
                (S "no-magic-numbers") (S "Define meaningful constant for numeric value")]
            else []
          else []
      | none => []
    let i4 :=
      if line.length - (strTrimStart line).length > 20 then
        [createIssue (S "deep-nesting-" ++ natToStr lineNum) .warning (S "Code Quality")
          (S "Code is deeply nested - consider refactoring") lineNum 0
          (S "complexity/max-depth")
          (S "Extract nested logic into separate functions or components")]
      else []
    let i5 :=
      if line.length > 120 then
        [createIssue (S "long-line-" ++ natToStr lineNum) .info (S "Code Quality")
          (S "Line is too long - consider breaking it up") lineNum 120
          (S "line-length/max-length")
          (S "Break long line into multiple lines for better readability")]
      else []
    let i6 :=
      match [S "TODO", S "FIXME", S "HACK"].find? (fun k => strIncludes line k) with
      | some keyword =>
          [createIssue (S "todo-comment-" ++ natToStr lineNum) .info (S "Code Quality")
            (keyword ++ S " comment found") lineNum (strIndexOf line keyword)
            (S "code-quality/todo-comments")
            (S "Address TODO comments or create proper issue tracking")]
      | none => []
    i1 ++ i2 ++ i3 ++ i4 ++ i5 ++ i6

/-! ### Metrics, summary and `analyzeCode` (`src/utils/analyzer.ts`, lines 95–1551) -/

/-- `EnhancedCodeMetrics` (`CodeMetrics` plus the extension dimensions). -/
structure EnhancedCodeMetrics where
  complexity : Int
  maintainability : Int
  testability : Int
  performance : Int
  semanticQuality : Int
  syntaxQuality : Int
  typeQuality : Int
  operatorQuality : Int
  symbolQuality : Int
deriving DecidableEq, Repr

/-- Whether `\s*:` matches right after a `?` (tail of the `\?\s*:` alternative). -/
def ternColonTest (s : Str) : Bool :=
  match s.dropWhile isJsSpace with
  | ':' :: _ => true
  | _ => false

/-- Number of matches of `/(if|for|while|switch|catch|\?\s*:)/g`
(`calculateMetrics`).  After a `\?\s*:` match the source resumes after the
`:`; resuming right after the `?` is equivalent here because no alternative
begins with a space or `:`. -/
def complexityIndicatorCount : Str → Nat
  | 'i' :: 'f' :: rest => complexityIndicatorCount rest + 1
  | 'f' :: 'o' :: 'r' :: rest => complexityIndicatorCount rest + 1
  | 'w' :: 'h' :: 'i' :: 'l' :: 'e' :: rest => complexityIndicatorCount rest + 1
  | 's' :: 'w' :: 'i' :: 't' :: 'c' :: 'h' :: rest => complexityIndicatorCount rest + 1
  | 'c' :: 'a' :: 't' :: 'c' :: 'h' :: rest => complexityIndicatorCount rest + 1
  | '?' :: rest =>
      if ternColonTest rest then complexityIndicatorCount rest + 1
      else complexityIndicatorCount rest
  | _ :: rest => complexityIndicatorCount rest
  | [] => 0

/-- `calculateMetrics`. -/
def calculateMetrics (code : Str) (issues : List CodeIssue) : EnhancedCodeMetrics :=
  let complexityIndicators := complexityIndicatorCount code
  let complexity := min 10 (max 1 ((10 : Int) - (complexityIndicators / 2 : Nat)))
  let semCount := (issues.filter fun i => i.category == S "Semantics").length
  let synCount := (issues.filter fun i => i.category == S "Syntax").length
  let tsCount := (issues.filter fun i => i.category == S "TypeScript").length
  let perfCount := (issues.filter fun i => i.category == S "Performance").length
  let opCount := (issues.filter fun i => i.category == S "Operators").length
  let symCount := (issues.filter fun i => i.category == S "Symbols").length
  let maintainability := min 10 (max 1 ((10 : Int) - (issues.length / 4 : Nat)))
  let hasExports := strIncludes code (S "export")
  let hasPureFunctions := strIncludes code (S "const ") && strIncludes code (S "=>")
  let hasProperStructure :=
    !(issues.any fun issue => issue.category == S "Syntax" && issue.type == IssueType.error)
  let testability : Int := if hasExports && hasPureFunctions && hasProperStructure then 8 else 6
  { complexity := complexity
    maintainability := maintainability
    testability := testability
    performance := min 10 (max 1 ((8 : Int) - perfCount))
    semanticQuality := min 10 (max 1 ((10 : Int) - semCount))
    syntaxQuality := min 10 (max 1 ((10 : Int) - synCount))
    typeQuality := min 10 (max 1 ((10 : Int) - tsCount))
    operatorQuality := min 10 (max 1 ((10 : Int) - opCount))
    symbolQuality := min 10 (max 1 ((10 : Int) - symCount)) }

/-- `CategorySummary` (`byCategory` buckets).  The source field `syntax` is a
Lean keyword and is rendered `syntaxCat`. -/
structure CategorySummary where
  semantics : Nat
  syntaxCat : Nat
  accessibility : Nat
  performance : Nat
  typescript : Nat
  react : Nat
  operators : Nat
  symbols : Nat
deriving DecidableEq, Repr

/-- `EnhancedIssueSummary`. -/
structure EnhancedIssueSummary where
  errors : Nat
  warnings : Nat
  info : Nat
  total : Nat
  byCategory : CategorySummary
deriving DecidableEq, Repr

/-- `generateSummary`. -/
def generateSummary (issues : List CodeIssue) : EnhancedIssueSummary :=
  { errors := (issues.filter fun i => i.type == IssueType.error).length
    warnings := (issues.filter fun i => i.type == IssueType.warning).length
    info := (issues.filter fun i => i.type == IssueType.info).length
    total := issues.length
    byCategory :=
      { semantics := (issues.filter fun i => i.category == S "Semantics").length
        syntaxCat := (issues.filter fun i => i.category == S "Syntax").length
        accessibility := (issues.filter fun i => i.category == S "Accessibility").length
        performance := (issues.filter fun i => i.category == S "Performance").length
        typescript := (issues.filter fun i => i.category == S "TypeScript").length
        react := (issues.filter fun i =>
          i.category == S "React" || i.category == S "React Hooks").length
        operators := (issues.filter fun i => i.category == S "Operators").length
        symbols := (issues.filter fun i => i.category == S "Symbols").length } }

/-- `AnalysisResult`. -/
structure AnalysisResult where
  issues : List CodeIssue
  metrics : EnhancedCodeMetrics
  summary : EnhancedIssueSummary
deriving DecidableEq, Repr

/-- `ReactCodeAnalyzer.analyzeCode`: the eight rule passes in source order,
then metrics and summary. -/
def analyzeCode (code : Str) : AnalysisResult :=
  let lines := splitLines code
  let issues :=
    checkBasicReactRules code lines ++ checkTypeScriptRules code lines
      ++ checkAccessibilityRules code lines ++ checkPerformanceRules code lines
      ++ checkCodeQualityRules code lines ++ checkSemanticRules code lines
      ++ checkSyntaxRules code lines ++ checkOperatorsAndSymbols code lines
  { issues := issues
    metrics := calculateMetrics code issues
    summary := generateSummary issues }

/-! ### Semantic engine metrics, summary and scoring
(`EnhancedSemanticAnalyzer`, `src/types/index.ts`, lines 1149–2074) -/

/-- Per-line increment of `calculateCyclomaticComplexity`. -/
def cycloLineIncr (line : Str) : Nat :=
  (if strIncludes line (S "if") || strIncludes line (S "else if") then 1 else 0)
    + (if strIncludes line (S "for") || strIncludes line (S "while")
          || strIncludes line (S "do") then 1 else 0)
    + (if strIncludes line (S "switch") then 1 else 0)
    + (if strIncludes line (S "case") then 1 else 0)
    + (if strIncludes line (S "catch") then 1 else 0)
    + (if strIncludes line (S "&&") || strIncludes line (S "||") then 1 else 0)
    + (if strIncludes line (S "?") && strIncludes line (S ":") then 1 else 0)

/-- `calculateCyclomaticComplexity`: base complexity 1 plus the per-line
increments. -/
def calculateCyclomaticComplexity (lines : List Str) : Nat :=
  1 + (lines.map cycloLineIncr).sum

/-- `calculateTestability`. -/
def calculateTestability (code : Str) : Int :=
  let score : Int := 5
  let score := if strIncludes code (S "export") then score + 2 else score
  let score :=
    if strIncludes code (S "pure") || !strIncludes code (S "side effect") then score + 1
    else score
  let score :=
    if strIncludes code (S "interface") || strIncludes code (S "type") then score + 1
    else score
  let score :=
    if !strIncludes code (S "document.") && !strIncludes code (S "window.") then score + 1
    else score
  let score :=
    if strIncludes code (S "localStorage") || strIncludes code (S "sessionStorage") then
      score - 1
    else score
  let score :=
    if strIncludes code (S "Date.now") || strIncludes code (S "Math.random") then score - 1
    else score
  let score :=
    if strIncludes code (S "setTimeout") || strIncludes code (S "setInterval") then score - 1
    else score
  max 1 (min 10 score)

/-- `calculateSemanticMetrics`.  Unlike `calculateMetrics`, its `complexity`
dimension is the raw cyclomatic complexity, with no upper clamp.  (The source
also counts `logic`- and `accessibility`-category issues it never reads.) -/
def calculateSemanticMetrics (code : Str) (issues : List CodeIssue) : EnhancedCodeMetrics :=
  let lines := splitLines code
  let namingCt := (issues.filter fun i => i.category == S "naming").length
  let structureCt := (issues.filter fun i => i.category == S "structure").length
  let performanceCt := (issues.filter fun i => i.category == S "performance").length
  let maintainabilityCt := (issues.filter fun i => i.category == S "maintainability").length
  { complexity := (calculateCyclomaticComplexity lines : Int)
    maintainability := max 1 ((10 : Int) - maintainabilityCt)
    testability := calculateTestability code
    performance := max 1 ((10 : Int) - performanceCt)
    semanticQuality := max 1 ((10 : Int) - namingCt - structureCt)
    syntaxQuality :=
      max 1 ((10 : Int) - ((issues.filter fun i => i.type == IssueType.error).length / 2 : Nat))
    typeQuality :=
      max 1 ((10 : Int) - (issues.filter fun i => strIncludes i.message (S "type")).length)
    operatorQuality :=
      max 1 ((10 : Int) - (issues.filter fun i => strIncludes i.message (S "operator")).length)
    symbolQuality :=
      max 1 ((10 : Int) - (issues.filter fun i => strIncludes i.message (S "symbol")).length) }

/-- `generateSemanticSummary` (its `byCategory` buckets differ from
`generateSummary`: lower-case semantic categories alongside the capitalized
analyzer ones). -/
def generateSemanticSummary (issues : List CodeIssue) : EnhancedIssueSummary :=
  { errors := (issues.filter fun i => i.type == IssueType.error).length
    warnings := (issues.filter fun i => i.type == IssueType.warning).length
    info := (issues.filter fun i => i.type == IssueType.info).length
    total := issues.length
    byCategory :=
      { semantics := (issues.filter fun i =>
          i.category == S "naming" || i.category == S "structure").length
        syntaxCat := (issues.filter fun i => i.category == S "Syntax").length
        accessibility := (issues.filter fun i => i.category == S "accessibility").length
        performance := (issues.filter fun i => i.category == S "performance").length
        typescript := (issues.filter fun i => i.category == S "TypeScript").length
        react := (issues.filter fun i => i.category == S "React").length
        operators := (issues.filter fun i => i.category == S "Operators").length
        symbols := (issues.filter fun i => i.category == S "Symbols").length } }

/-- The `breakdown` record of `generateSemanticScore`.  The source field
`structure` is a Lean keyword and is rendered `structureDim`. -/
structure ScoreBreakdown where
  naming : Int
  structureDim : Int
  complexity : Int
  maintainability : Int
  performance : Int
  accessibility : Int
deriving DecidableEq, Repr

/-- JS `Math.round`: round half towards positive infinity. -/
def jsRound (x : ℚ) : Int := Int.floor (x + 1 / 2)

/-- The grade table of `generateSemanticScore` (the `if`/`else if` chain on
`overallScore`). -/
def gradeOf (overallScore : Int) : Str :=
  if overallScore ≥ 90 then S "A+"
  else if overallScore ≥ 85 then S "A"
  else if overallScore ≥ 80 then S "A-"
  else if overallScore ≥ 75 then S "B+"
  else if overallScore ≥ 70 then S "B"
  else if overallScore ≥ 65 then S "B-"
  else if overallScore ≥ 60 then S "C+"
  else if overallScore ≥ 55 then S "C"
  else if overallScore ≥ 50 then S "C-"
  else if overallScore ≥ 45 then S "D+"
  else if overallScore ≥ 40 then S "D"
  else S "F"

/-- `generateSemanticScore`, factored over the issue list: the source computes
`issues` as `this.analyzeSemantics(code).issues` and then uses only `issues`
and `code`; passing that list as a parameter lets every property be proved for
whatever list the semantic passes produce.  The floating-point weighted sum is
modelled by exact rational arithmetic. -/
def generateSemanticScoreFrom (code : Str) (issues : List CodeIssue) :
    Int × ScoreBreakdown × Str :=
  let lines := splitLines code
  let naming : Int :=
    max 0 (100 - ((issues.filter fun i => i.category == S "Naming").length * 5 : Nat))
  let structureDim : Int :=
    max 0 (100 - ((issues.filter fun i => i.category == S "Structure").length * 8 : Nat))
  let complexity : Int := max 0 (100 - (calculateCyclomaticComplexity lines * 5 : Nat))
  let maintainability : Int :=
    max 0 (100 - ((issues.filter fun i => i.category == S "Maintainability").length * 6 : Nat))
  let performance : Int :=
    max 0 (100 - ((issues.filter fun i => i.category == S "Performance").length * 10 : Nat))
  let accessibility : Int :=
    max 0 (100 - ((issues.filter fun i => i.category == S "Accessibility").length * 8 : Nat))
  let overallScore : Int :=
    jsRound ((naming : ℚ) * (15 / 100) + (structureDim : ℚ) * (25 / 100)
      + (complexity : ℚ) * (20 / 100) + (maintainability : ℚ) * (20 / 100)
      + (performance : ℚ) * (10 / 100) + (accessibility : ℚ) * (10 / 100))
  (overallScore,
   { naming := naming, structureDim := structureDim, complexity := complexity
     maintainability := maintainability, performance := performance
     accessibility := accessibility },
   gradeOf overallScore)

/-! ### Two-artifact comparison (`FileComparisonView.metricComparisons`,
`src/unnamed/part_002`, lines 62–89) -/

/-- `CodeMetrics` from `src/types/index.ts`: the four core dimensions. -/
structure CodeMetrics where
  complexity : Int
  maintainability : Int
  testability : Int
  performance : Int
deriving DecidableEq, Repr

/-- The `winner` field values `'A' | 'B' | 'tie'`. -/
inductive Winner where
  | A
  | B
  | tie
deriving DecidableEq, Repr

/-- `ComparisonResult` of `FileComparisonView`. -/
structure ComparisonResult where
  metric : Str
  fileA : Int
  fileB : Int
  difference : Int
  winner : Winner
deriving DecidableEq, Repr

/-- `metric.charAt(0).toUpperCase() + metric.slice(1)`. -/
def capitalizeFirst : Str → Str
  | [] => []
  | c :: cs => c.toUpper :: cs

/-- `metricComparisons`: over the four core metric keys, the per-metric
difference and winner. -/
def metricComparisons (mA mB : CodeMetrics) : List ComparisonResult :=
  [(S "complexity", mA.complexity, mB.complexity),
   (S "maintainability", mA.maintainability, mB.maintainability),
   (S "testability", mA.testability, mB.testability),
   (S "performance", mA.performance, mB.performance)].map fun t =>
    let valueA := t.2.1
    let valueB := t.2.2
    let difference := valueA - valueB
    { metric := capitalizeFirst t.1
      fileA := valueA
      fileB := valueB
      difference := difference
      winner :=
        if difference > 0 then Winner.A
        else if difference < 0 then Winner.B
        else Winner.tie }

/-! ### Issue filtering (`IssueFilterManager`, `src/utils/filterUtils.ts`) -/

/-- `IssueFilters` from `src/types`: JS `Set`s are embedded as `Finset`s
(`size` is `card`, `has` is membership). -/
structure IssueFilters where
  severity : Finset IssueType
  categories : Finset Str
  searchTerm : Str

/-- `IssueFilterManager.matchesSearchTerm`. -/
def matchesSearchTerm (issue : CodeIssue) (searchTerm : Str) : Bool :=
  if (strTrim searchTerm).isEmpty then true
  else
    let term := strToLower searchTerm
    strIncludes (strToLower issue.message) term
      || strIncludes (strToLower issue.category) term
      || strIncludes (strToLower issue.rule) term
      || ((issue.suggestion.map fun s => strIncludes (strToLower s) term).getD false)

/-- `IssueFilterManager.filterIssues`. -/
def filterIssues (issues : List CodeIssue) (filters : IssueFilters) : List CodeIssue :=
  issues.filter fun issue =>
    let matchesSeverity := filters.severity.card = 0 || issue.type ∈ filters.severity
    let matchesCategory := filters.categories.card = 0 || issue.category ∈ filters.categories
    let matchesSearch := matchesSearchTerm issue filters.searchTerm
    matchesSeverity && matchesCategory && matchesSearch

/-- `IssueFilterManager.createDefaultFilters`. -/
def createDefaultFilters : IssueFilters :=
  { severity := {IssueType.error, IssueType.warning, IssueType.info}
    categories := ∅
    searchTerm := [] }

/-! ### Derived notions used by the statements -/

/-- Sum of all `byCategory` buckets of a summary. -/
def byCategorySum (c : CategorySummary) : Nat :=
  c.semantics + c.syntaxCat + c.accessibility + c.performance + c.typescript + c.react
    + c.operators + c.symbols

/-- The categories that `generateSummary.byCategory` actually counts. -/
def trackedCategory (cat : Str) : Bool :=
  cat == S "Semantics" || cat == S "Syntax" || cat == S "Accessibility"
    || cat == S "Performance" || cat == S "TypeScript" || cat == S "React"
    || cat == S "React Hooks" || cat == S "Operators" || cat == S "Symbols"

/-- The twelve grades of the grade table, ordered best first. -/
def gradeList : List Str :=
  [S "A+", S "A", S "A-", S "B+", S "B", S "B-", S "C+", S "C", S "C-", S "D+", S "D", S "F"]

/-- Index into `gradeList` assigned to a composite score by the grade table:
the same threshold chain as `gradeOf`. -/
def rankOfScore (s : Int) : Nat :=
  if s ≥ 90 then 0
  else if s ≥ 85 then 1
  else if s ≥ 80 then 2
  else if s ≥ 75 then 3
  else if s ≥ 70 then 4
  else if s ≥ 65 then 5
  else if s ≥ 60 then 6
  else if s ≥ 55 then 7
  else if s ≥ 50 then 8
  else if s ≥ 45 then 9
  else if s ≥ 40 then 10
  else 11

/-- The input of testable-property scenario C7: `"if (a == b) {}\n"`. -/
def inputC7 : Str := S "if (a == b) \x7b\x7d\n"

/-- A line whose two semicolon rules collide on issue ids. -/
def inputC9 : Str := S "x = 1"

/-- A line producing an issue of the untracked `Code Quality` category. -/
def inputC8 : Str := S "console.log(x);"

/-- Ten lines containing `if`: cyclomatic complexity 11. -/
def manyIfs : Str := S "if\nif\nif\nif\nif\nif\nif\nif\nif\nif"

/-- The integer scores 0 … 100 the grade-table claim ranges over. -/
def scoreRange : List Int := (List.range 101).map Int.ofNat

/-! ## Theorems -/

/-- Severity counters partition any issue list. -/
theorem filter_type_partition (issues : List CodeIssue) :
    (issues.filter fun i => i.type == IssueType.error).length
      + (issues.filter fun i => i.type == IssueType.warning).length
      + (issues.filter fun i => i.type == IssueType.info).length = issues.length := by
  induction issues with
  | nil => rfl
  | cons i t ih => cases h : i.type <;> simp [List.filter_cons, h] <;> omega

/-- `generateSummary` satisfies the severity-partition invariant. -/
theorem generateSummary_partition (issues : List CodeIssue) :
    (generateSummary issues).errors + (generateSummary issues).warnings
        + (generateSummary issues).info = (generateSummary issues).total
      ∧ (generateSummary issues).total = issues.length :=
  ⟨filter_type_partition issues, rfl⟩

/-- C1: for every input text, the summary of `analyzeCode` satisfies
`errors + warnings + info = total = issues.length`; the semantic engine's
`generateSemanticSummary` satisfies the same invariant for every issue list. -/
theorem claim_C1 :
    (∀ code : Str,
      (analyzeCode code).summary.errors + (analyzeCode code).summary.warnings
          + (analyzeCode code).summary.info = (analyzeCode code).summary.total
        ∧ (analyzeCode code).summary.total = (analyzeCode code).issues.length)
    ∧ (∀ issues : List CodeIssue,
      (generateSemanticSummary issues).errors + (generateSemanticSummary issues).warnings
          + (generateSemanticSummary issues).info = (generateSemanticSummary issues).total
        ∧ (generateSemanticSummary issues).total = issues.length) := by
  constructor
  · intro code
    exact generateSummary_partition (analyzeCode code).issues
  · intro issues
    exact ⟨filter_type_partition issues, rfl⟩

/-- C10: on the empty input, `analyzeCode` reports no issues, all-zero summary
counts, and metrics `complexity = 10`, `maintainability = 10`,
`testability = 6`, `performance = 8`. -/
theorem claim_C10 :
    (analyzeCode (S "")).issues = []
      ∧ (analyzeCode (S "")).summary.errors = 0
      ∧ (analyzeCode (S "")).summary.warnings = 0
      ∧ (analyzeCode (S "")).summary.info = 0
      ∧ (analyzeCode (S "")).summary.total = 0
      ∧ (analyzeCode (S "")).metrics.complexity = 10
      ∧ (analyzeCode (S "")).metrics.maintainability = 10
      ∧ (analyzeCode (S "")).metrics.testability = 6
      ∧ (analyzeCode (S "")).metrics.performance = 8 := by
  refine ⟨?_, ?_, ?_, ?_, ?_, ?_, ?_, ?_, ?_⟩ <;> decide

/-- C9 counterexample: on input `"x = 1"` the run emits two issues and their
ids are not pairwise distinct (both semicolon rules emit
`missing-semicolon-1`), refuting per-run id uniqueness. -/
theorem claim_C9_counterexample :
    ¬ ((analyzeCode inputC9).issues.map CodeIssue.id).Nodup
      ∧ (analyzeCode inputC9).issues.length = 2 := by
  refine ⟨?_, ?_⟩ <;> decide

/-- C9 amended: issue ids embed only the rule name and line number, so two
different rules matching the same line can emit identical ids; ids are not
unique per run.  On `"x = 1"` the `Syntax` and `Symbols` semicolon rules both
emit `missing-semicolon-1` for two distinct issues. -/
theorem claim_C9_amended :
    (analyzeCode inputC9).issues.map CodeIssue.id
        = [S "missing-semicolon-1", S "missing-semicolon-1"]
      ∧ (analyzeCode inputC9).issues.map CodeIssue.category = [S "Syntax", S "Symbols"]
      ∧ (S "Syntax" : Str) ≠ S "Symbols" := by
  refine ⟨?_, ?_, ?_⟩ <;> decide

/-- C7 counterexample: on `"if (a == b) {}\n"` the run emits no empty-block
issue at all (the only issue is the loose-equality warning), refuting the
claimed empty-block issue: the empty-block rule fires only when a whole
trimmed line is exactly `{}` or `{ }`. -/
theorem claim_C7_counterexample :
    ((analyzeCode inputC7).issues.filter fun i => (S "empty-block").isPrefixOf i.id) = []
      ∧ ((analyzeCode inputC7).issues.filter fun i => i.rule == S "no-empty") = []
      ∧ (analyzeCode inputC7).issues.map CodeIssue.id = [S "loose-equality-1"] := by
  refine ⟨?_, ?_, ?_⟩ <;> decide

/-- C7 amended: on `"if (a == b) {}\n"`, `analyzeCode` emits a loose-equality
issue referencing line 1, and no empty-block issue (that rule requires a line
that is exactly `{}` or `{ }` after trimming, which a standalone `{}` line
does trigger). -/
theorem claim_C7_amended :
    (analyzeCode inputC7).issues.map (fun i => (i.id, i.line, i.category, i.rule))
        = [(S "loose-equality-1", 1, S "Operators", S "operators/strict-equality")]
      ∧ ((analyzeCode inputC7).issues.filter fun i => i.rule == S "no-empty") = []
      ∧ (analyzeCode (S "\x7b\x7d")).issues.map (fun i => (i.id, i.line))
          = [(S "empty-block-1", 1)] := by
  refine ⟨?_, ?_, ?_⟩ <;> decide

/-- C8 counterexample: on `"console.log(x);"` the only issue has the untracked
category `Code Quality`, so the `byCategory` buckets sum to 0 while
`summary.total = 1`. -/
theorem claim_C8_counterexample :
    byCategorySum (analyzeCode inputC8).summary.byCategory = 0
      ∧ (analyzeCode inputC8).summary.total = 1
      ∧ (analyzeCode inputC8).issues.map CodeIssue.category = [S "Code Quality"] := by
  refine ⟨?_, ?_, ?_⟩ <;> decide

/-- Per-issue indicator: the eight bucket tests contribute exactly one when
the category is tracked and zero otherwise. -/
theorem trackedCategory_indicator (c : Str) :
    ((if c == S "Semantics" then 1 else 0) + (if c == S "Syntax" then 1 else 0)
        + (if c == S "Accessibility" then 1 else 0) + (if c == S "Performance" then 1 else 0)
        + (if c == S "TypeScript" then 1 else 0)
        + (if c == S "React" || c == S "React Hooks" then 1 else 0)
        + (if c == S "Operators" then 1 else 0) + (if c == S "Symbols" then 1 else 0) : Nat)
      = if trackedCategory c then 1 else 0 := by
  by_cases h1 : c = S "Semantics"
  · subst h1; decide
  by_cases h2 : c = S "Syntax"
  · subst h2; decide
  by_cases h3 : c = S "Accessibility"
  · subst h3; decide
  by_cases h4 : c = S "Performance"
  · subst h4; decide
  by_cases h5 : c = S "TypeScript"
  · subst h5; decide
  by_cases h6 : c = S "React"
  · subst h6; decide
  by_cases h7 : c = S "React Hooks"
  · subst h7; decide
  by_cases h8 : c = S "Operators"
  · subst h8; decide
  by_cases h9 : c = S "Symbols"
  · subst h9; decide
  simp [trackedCategory, h1, h2, h3, h4, h5, h6, h7, h8, h9]

/-- The bucket sum of `generateSummary` counts exactly the tracked-category
issues. -/
theorem byCategorySum_eq (issues : List CodeIssue) :
    byCategorySum (generateSummary issues).byCategory
      = issues.countP fun i => trackedCategory i.category := by
  induction issues with
  | nil => rfl
  | cons i t ih =>
      have hi := trackedCategory_indicator i.category
      simp only [generateSummary, byCategorySum, ← List.countP_eq_length_filter,
        List.countP_cons] at *
      omega

/-- C8 amended: the `byCategory` buckets sum to the number of issues whose
category is one of the eight tracked ones
(`Semantics`, `Syntax`, `Accessibility`, `Performance`, `TypeScript`,
`React`/`React Hooks`, `Operators`, `Symbols`); this is at most
`summary.total`, and strictly less whenever issues carry untracked categories
such as `Code Quality` or `Type Safety`. -/
theorem claim_C8_amended :
    ∀ issues : List CodeIssue,
      byCategorySum (generateSummary issues).byCategory
          = (issues.filter fun i => trackedCategory i.category).length
        ∧ byCategorySum (generateSummary issues).byCategory
            ≤ (generateSummary issues).total := by
  intro issues
  have h := byCategorySum_eq issues
  constructor
  · rw [h, List.countP_eq_length_filter]
  · rw [h]
    exact List.countP_le_length _

/-- C4 counterexample: on `"{["`, the validator emits two unclosed-bracket
issues both carrying column 0, yet the `[` token was opened at column 1 — the
opening column is never recorded (`BracketPair` stores only `char` and
`line`), refuting the "correct … column" part of the claim. -/
theorem claim_C4_counterexample :
    ((checkCodeStructureSyntax (S "\x7b[")).map fun i => (i.message, i.line, i.column))
        = [(S "Unclosed \x7b bracket", 1, 0), (S "Unclosed [ bracket", 1, 0)]
      ∧ strIndexOf (S "\x7b[") (S "[") = 1
      ∧ (0 : Int) ≠ 1 := by
  refine ⟨?_, ?_, ?_⟩ <;> decide

/-- C4 amended: `"{[()]}"` yields no structural issues; `"{[(])}"` yields at
least one mismatch issue; `"{["` yields exactly two unclosed-bracket errors,
one per still-open token, each referencing the correct opening line — but the
reported column is always 0, not the column where the token was opened. -/
theorem claim_C4_amended :
    checkCodeStructureSyntax (S "\x7b[()]\x7d") = []
      ∧ 1 ≤ ((checkCodeStructureSyntax (S "\x7b[(])\x7d")).filter fun i =>
          i.rule == S "syntax/code-structure").length
      ∧ ((checkCodeStructureSyntax (S "\x7b[")).map fun i =>
          (i.id, i.message, i.line, i.column))
          = [(S "unclosed-bracket-1", S "Unclosed \x7b bracket", 1, 0),
             (S "unclosed-bracket-1", S "Unclosed [ bracket", 1, 0)] := by
  refine ⟨?_, ?_, ?_⟩ <;> decide

/-- C2 counterexample: on ten lines of `if` (and an empty issue list) the
semantic metrics report `complexity = 11`, outside the declared `[1, 10]`
bound — `calculateSemanticMetrics` does not clamp this dimension. -/
theorem claim_C2_counterexample :
    (calculateSemanticMetrics manyIfs []).complexity = 11
      ∧ ¬ ((calculateSemanticMetrics manyIfs []).complexity ≤ 10) := by
  refine ⟨?_, ?_⟩ <;> decide

/-- C2 amended: in `calculateMetrics` every dimension is clamped into
`[1, 10]` for every input; in `calculateSemanticMetrics` every dimension
except `complexity` is clamped into `[1, 10]`, while `complexity` is the raw
cyclomatic complexity — at least 1, independent of the issue list, and with
no upper clamp (see the counterexample). -/
theorem claim_C2_amended :
    ∀ (code : Str) (issues : List CodeIssue),
      (1 ≤ (calculateMetrics code issues).complexity
        ∧ (calculateMetrics code issues).complexity ≤ 10
        ∧ 1 ≤ (calculateMetrics code issues).maintainability
        ∧ (calculateMetrics code issues).maintainability ≤ 10
        ∧ 1 ≤ (calculateMetrics code issues).testability
        ∧ (calculateMetrics code issues).testability ≤ 10
        ∧ 1 ≤ (calculateMetrics code issues).performance
        ∧ (calculateMetrics code issues).performance ≤ 10
        ∧ 1 ≤ (calculateMetrics code issues).semanticQuality
        ∧ (calculateMetrics code issues).semanticQuality ≤ 10
        ∧ 1 ≤ (calculateMetrics code issues).syntaxQuality
        ∧ (calculateMetrics code issues).syntaxQuality ≤ 10
        ∧ 1 ≤ (calculateMetrics code issues).typeQuality
        ∧ (calculateMetrics code issues).typeQuality ≤ 10
        ∧ 1 ≤ (calculateMetrics code issues).operatorQuality
        ∧ (calculateMetrics code issues).operatorQuality ≤ 10
        ∧ 1 ≤ (calculateMetrics code issues).symbolQuality
        ∧ (calculateMetrics code issues).symbolQuality ≤ 10)
      ∧ (1 ≤ (calculateSemanticMetrics code issues).maintainability
        ∧ (calculateSemanticMetrics code issues).maintainability ≤ 10
        ∧ 1 ≤ (calculateSemanticMetrics code issues).testability
        ∧ (calculateSemanticMetrics code issues).testability ≤ 10
        ∧ 1 ≤ (calculateSemanticMetrics code issues).performance
        ∧ (calculateSemanticMetrics code issues).performance ≤ 10
        ∧ 1 ≤ (calculateSemanticMetrics code issues).semanticQuality
        ∧ (calculateSemanticMetrics code issues).semanticQuality ≤ 10
        ∧ 1 ≤ (calculateSemanticMetrics code issues).syntaxQuality
        ∧ (calculateSemanticMetrics code issues).syntaxQuality ≤ 10
        ∧ 1 ≤ (calculateSemanticMetrics code issues).typeQuality
        ∧ (calculateSemanticMetrics code issues).typeQuality ≤ 10
        ∧ 1 ≤ (calculateSemanticMetrics code issues).operatorQuality
        ∧ (calculateSemanticMetrics code issues).operatorQuality ≤ 10
        ∧ 1 ≤ (calculateSemanticMetrics code issues).symbolQuality
        ∧ (calculateSemanticMetrics code issues).symbolQuality ≤ 10
        ∧ 1 ≤ (calculateSemanticMetrics code issues).complexity
        ∧ (calculateSemanticMetrics code issues).complexity
            = (calculateCyclomaticComplexity (splitLines code) : Int)) := by
  intro code issues
  refine ⟨⟨?_, ?_, ?_, ?_, ?_, ?_, ?_, ?_, ?_, ?_, ?_, ?_, ?_, ?_, ?_, ?_, ?_, ?_⟩,
          ⟨?_, ?_, ?_, ?_, ?_, ?_, ?_, ?_, ?_, ?_, ?_, ?_, ?_, ?_, ?_, ?_, ?_, ?_⟩⟩ <;>
    simp only [calculateMetrics, calculateSemanticMetrics, calculateTestability,
      calculateCyclomaticComplexity] <;>
    first
      | rfl
      | omega

/-- C5: filtering with the default criteria is the identity; filtering is
idempotent for every criteria; and the output is always a sublist of the
input (pure, order-preserving). -/
theorem claim_C5 :
    (∀ issues : List CodeIssue, filterIssues issues createDefaultFilters = issues)
    ∧ (∀ (issues : List CodeIssue) (c : IssueFilters),
        filterIssues (filterIssues issues c) c = filterIssues issues c)
    ∧ (∀ (issues : List CodeIssue) (c : IssueFilters),
        (filterIssues issues c).Sublist issues) := by
  refine ⟨?_, ?_, ?_⟩
  · intro issues
    unfold filterIssues
    rw [List.filter_eq_self]
    intro a _
    have hsearch : matchesSearchTerm a [] = true := rfl
    cases h : a.type <;> simp [createDefaultFilters, hsearch, h]
  · intro issues c
    unfold filterIssues
    rw [List.filter_filter]
    simp only [Bool.and_self]
  · intro issues c
    unfold filterIssues
    exact List.filter_sublist _

/-- C6: comparing a result with itself gives difference 0 and a tie on every
metric; in general each comparison row satisfies
`difference = valueA − valueB` with the winner determined by its sign. -/
theorem claim_C6 :
    (∀ m : CodeMetrics, ∀ c ∈ metricComparisons m m,
      c.difference = 0 ∧ c.winner = Winner.tie)
    ∧ (∀ mA mB : CodeMetrics, ∀ c ∈ metricComparisons mA mB,
      c.difference = c.fileA - c.fileB
        ∧ (0 < c.difference → c.winner = Winner.A)
        ∧ (c.difference < 0 → c.winner = Winner.B)
        ∧ (c.difference = 0 → c.winner = Winner.tie)) := by
  constructor
  · intro m c hc
    simp only [metricComparisons, List.map_cons, List.map_nil, List.mem_cons,
      List.not_mem_nil, or_false] at hc
    rcases hc with rfl | rfl | rfl | rfl <;> exact ⟨by simp, by simp⟩
  · intro mA mB c hc
    simp only [metricComparisons, List.map_cons, List.map_nil, List.mem_cons,
      List.not_mem_nil, or_false] at hc
    rcases hc with rfl | rfl | rfl | rfl <;> dsimp only <;>
      refine ⟨rfl, ?_, ?_, ?_⟩ <;> intro h <;>
        split_ifs <;> first | rfl | omega

/-- Concrete metrics record used by the C6 witness. -/
def mWitness : CodeMetrics := ⟨5, 5, 5, 5⟩

/-- Witness for C6 at `mWitness` compared with itself, first comparison row. -/
theorem claim_C6_witness :
    ((⟨S "Complexity", 5, 5, 0, Winner.tie⟩ : ComparisonResult)
        ∈ metricComparisons mWitness mWitness)
      ∧ ((⟨S "Complexity", 5, 5, 0, Winner.tie⟩ : ComparisonResult).difference = 0
          ∧ (⟨S "Complexity", 5, 5, 0, Winner.tie⟩ : ComparisonResult).winner = Winner.tie) :=
  ⟨by decide, claim_C6.1 mWitness ⟨S "Complexity", 5, 5, 0, Winner.tie⟩ (by decide)⟩

/-- An `if` between two members of a list is a member. -/
theorem iteMemOf {α : Type} {c : Prop} [Decidable c] {a b : α} {L : List α}
    (ha : a ∈ L) (hb : b ∈ L) : (if c then a else b) ∈ L := by
  by_cases h : c <;> simp [h, ha, hb]

/-- The grade chain is the lookup of `rankOfScore` in `gradeList`. -/
theorem gradeOf_eq_rank (s : Int) : gradeOf s = gradeList.getD (rankOfScore s) (S "F") := by
  rw [rankOfScore]
  simp only [apply_ite (fun n : Nat => gradeList.getD n (S "F"))]
  rfl

set_option maxRecDepth 10000 in
/-- Over the integer scores 0 … 100, a larger composite score never gets a
worse (larger) rank. -/
theorem rankOfScore_antitone : ∀ j ∈ scoreRange, ∀ k ∈ scoreRange, j ≤ k →
    rankOfScore k ≤ rankOfScore j := by decide

/-- Every score is assigned one of the twelve grades. -/
theorem gradeOf_mem (s : Int) : gradeOf s ∈ gradeList := by
  unfold gradeOf
  apply iteMemOf (by decide)
  apply iteMemOf (by decide)
  apply iteMemOf (by decide)
  apply iteMemOf (by decide)
  apply iteMemOf (by decide)
  apply iteMemOf (by decide)
  apply iteMemOf (by decide)
  apply iteMemOf (by decide)
  apply iteMemOf (by decide)
  apply iteMemOf (by decide)
  apply iteMemOf (by decide) (by decide)

/-- `Math.round` maps `[0, 100]` into the integers `0 … 100`. -/
theorem jsRound_nonneg_le (x : ℚ) (h0 : 0 ≤ x) (h1 : x ≤ 100) :
    0 ≤ jsRound x ∧ jsRound x ≤ 100 := by
  unfold jsRound
  constructor
  · exact Int.le_floor.mpr (by push_cast; linarith)
  · have h2 : ⌊x + 1 / 2⌋ < (101 : Int) := Int.floor_lt.mpr (by push_cast; linarith)
    omega

/-- The fixed-weight blend of six values in `[0, 100]`, rounded, stays in
`[0, 100]`. -/
theorem weighted_round_bounds (a b c d e f : Int)
    (ha : 0 ≤ a ∧ a ≤ 100) (hb : 0 ≤ b ∧ b ≤ 100) (hc : 0 ≤ c ∧ c ≤ 100)
    (hd : 0 ≤ d ∧ d ≤ 100) (he : 0 ≤ e ∧ e ≤ 100) (hf : 0 ≤ f ∧ f ≤ 100) :
    0 ≤ jsRound ((a : ℚ) * (15 / 100) + (b : ℚ) * (25 / 100) + (c : ℚ) * (20 / 100)
        + (d : ℚ) * (20 / 100) + (e : ℚ) * (10 / 100) + (f : ℚ) * (10 / 100))
      ∧ jsRound ((a : ℚ) * (15 / 100) + (b : ℚ) * (25 / 100) + (c : ℚ) * (20 / 100)
          + (d : ℚ) * (20 / 100) + (e : ℚ) * (10 / 100) + (f : ℚ) * (10 / 100)) ≤ 100 := by
  have ca : (0 : ℚ) ≤ (a : ℚ) := by exact_mod_cast ha.1
  have cb : (0 : ℚ) ≤ (b : ℚ) := by exact_mod_cast hb.1
  have cc : (0 : ℚ) ≤ (c : ℚ) := by exact_mod_cast hc.1
  have cd : (0 : ℚ) ≤ (d : ℚ) := by exact_mod_cast hd.1
  have ce : (0 : ℚ) ≤ (e : ℚ) := by exact_mod_cast he.1
  have cf : (0 : ℚ) ≤ (f : ℚ) := by exact_mod_cast hf.1
  have ca' : (a : ℚ) ≤ 100 := by exact_mod_cast ha.2
  have cb' : (b : ℚ) ≤ 100 := by exact_mod_cast hb.2
  have cc' : (c : ℚ) ≤ 100 := by exact_mod_cast hc.2
  have cd' : (d : ℚ) ≤ 100 := by exact_mod_cast hd.2
  have ce' : (e : ℚ) ≤ 100 := by exact_mod_cast he.2
  have cf' : (f : ℚ) ≤ 100 := by exact_mod_cast hf.2
  exact jsRound_nonneg_le _ (by linarith) (by linarith)

/-- The composite score of `generateSemanticScoreFrom` lies in `[0, 100]`. -/
theorem scoreFrom_bounds (code : Str) (issues : List CodeIssue) :
    0 ≤ (generateSemanticScoreFrom code issues).1
      ∧ (generateSemanticScoreFrom code issues).1 ≤ 100 := by
  simp only [generateSemanticScoreFrom]
  exact weighted_round_bounds _ _ _ _ _ _ (by constructor <;> omega)
    (by constructor <;> omega) (by constructor <;> omega) (by constructor <;> omega)
    (by constructor <;> omega) (by constructor <;> omega)

/-- C3: the grade table is total over all integer scores (each score gets
exactly one of the twelve distinct grades, by rank lookup), monotone in the
score, maps 90 to `A+`, 89 to `A` and 0 to `F`; and the weighted composite
`overallScore` is an integer in `[0, 100]` for every input, with the returned
grade equal to the table applied to it. -/
theorem claim_C3 :
    (gradeOf 90 = S "A+" ∧ gradeOf 89 = S "A" ∧ gradeOf 0 = S "F")
    ∧ gradeList.Nodup
    ∧ (∀ s : Int, gradeOf s ∈ gradeList)
    ∧ (∀ s : Int, gradeOf s = gradeList.getD (rankOfScore s) (S "F"))
    ∧ (∀ j ∈ scoreRange, ∀ k ∈ scoreRange, j ≤ k → rankOfScore k ≤ rankOfScore j)
    ∧ (∀ (code : Str) (issues : List CodeIssue),
        0 ≤ (generateSemanticScoreFrom code issues).1
          ∧ (generateSemanticScoreFrom code issues).1 ≤ 100
          ∧ (generateSemanticScoreFrom code issues).2.2
              = gradeOf (generateSemanticScoreFrom code issues).1) := by
  refine ⟨⟨by decide, by decide, by decide⟩, by decide, fun s => gradeOf_mem s,
    fun s => gradeOf_eq_rank s, rankOfScore_antitone, fun code issues =>
      ⟨(scoreFrom_bounds code issues).1, (scoreFrom_bounds code issues).2, rfl⟩⟩

/-- Witness for C3's monotonicity hypotheses at the concrete scores 40 ≤ 90. -/
theorem claim_C3_witness :
    ((40 : Int) ∈ scoreRange ∧ (90 : Int) ∈ scoreRange ∧ (40 : Int) ≤ 90)
      ∧ rankOfScore 90 ≤ rankOfScore 40 :=
  ⟨⟨by decide, by decide, by decide⟩,
    claim_C3.2.2.2.2.1 40 (by decide) 90 (by decide) (by decide)⟩

end CodeAnalyzer
